import Mathlib

/-!
Verification of the Object Admission Pipeline
(`src/backend/services/objects/*` and `src/backend/utils/redis_client.py`).

Conventions of the embedding:
* Python floats are modelled as exact rationals (`ℚ`); the claims under
  scrutiny are about the algorithms, not float rounding.
* The ephemeral store (Redis) is modelled as association lists: the object
  hash `obj:{id}`, the per-object view ZSET `obj:{id}:views`, the metrics
  hash `obj:{id}:metrics`, and the three work queues.  `HSET` on a missing
  key creates the hash; the fields it does not mention are read back through
  `.get(field, default)` at every call site, so a missing field behaves
  exactly like its default — the model therefore keeps a total record with
  those defaults.
* The JSON encode/decode round-trips (`notes`, `best_frames`) are identities
  in the model.
* Transcendental primitives (`math.atan2`, `math.sqrt`) are parameters of
  the embedding, constrained where a claim needs their exact values.
-/

/-- Association-list lookup by key (Redis `HGETALL`/dictionary access). -/
def alookup (k : String) : List (String × β) → Option β
  | [] => none
  | (k', v) :: rest => if k' = k then some v else alookup k rest

/-- Association-list update-or-insert: apply `g` to the entry at `k`,
inserting `g dflt` when the key is absent (Redis `HSET` on a single field
creates the hash when missing). -/
def aupdate (dflt : β) (k : String) (g : β → β) : List (String × β) → List (String × β)
  | [] => [(k, g dflt)]
  | (k', v) :: rest => if k' = k then (k', g v) :: rest else (k', v) :: aupdate dflt k g rest

/-- Arithmetic mean of a list, `np.mean` (0 on the empty list, which every
call site guards against). -/
def listMean (xs : List ℚ) : ℚ := xs.sum / xs.length

/-- Population variance of a list, `np.var` (ddof = 0). -/
def listVariance (xs : List ℚ) : ℚ :=
  (xs.map (fun x => (x - listMean xs) ^ 2)).sum / xs.length

/-- Python's `%` on rationals: `a % b = a - b*⌊a/b⌋`, in `[0, b)` for `b > 0`. -/
def fmod (a b : ℚ) : ℚ := a - b * ⌊a / b⌋

/-- Values `f xᵢ xⱼ` over all index pairs `i < j`, in the order produced by
the nested `for i / for j in range(i+1, n)` loops of `quality_metrics.py`. -/
def pairwiseVals (f : α → α → ℚ) : List α → List ℚ
  | [] => []
  | x :: rest => rest.map (f x) ++ pairwiseVals f rest

/-- One entry of the status-transition audit log stored under the object's
`notes.status_transitions` (`object_brain.py`, `transition_status`). -/
structure AuditEntry where
  fromStatus : String
  toStatus : String
  reason : String
  timestamp : String
  deriving DecidableEq, Repr

/-- The tracker's best-frame record: `{'best': frame_id, 'score': score}`.
The empty dict `{}` is modelled as `none` at the use sites. -/
structure BestFrame where
  frameId : String
  score : ℚ
  deriving DecidableEq, Repr

/-- The object hash `obj:{id}`.  Field defaults equal the `.get(field,
default)` fallbacks used by every reader, so a field never written behaves
identically to its default. -/
structure ObjData where
  className : String := "unknown"
  status : String := "pending"
  orbitDeg : ℚ := 0
  views : Nat := 0
  bestFrames : Option BestFrame := none
  confClass : ℚ := 0
  scaleConf : ℚ := 0
  lastSeenTs : ℚ := 0
  notes : List AuditEntry := []
  deriving DecidableEq, Repr

/-- The ephemeral store (`redis_client.py`): object hashes, per-object view
ZSETs, per-object metrics hashes, and the three work queues.  `LPUSH`
prepends; queue consumers `RPOP` from the tail (FIFO). -/
structure RedisState where
  objects : List (String × ObjData) := []
  viewsZ : List (String × List (String × ℚ)) := []
  metricsH : List (String × List (String × ℚ)) := []
  triage : List String := []
  recon : List String := []
  quarantineQ : List (String × String) := []
  deriving DecidableEq, Repr

/-- `RedisClient.get_object` (None when the key is missing). -/
def get_object (st : RedisState) (objId : String) : Option ObjData :=
  alookup objId st.objects

/-- `RedisClient.set_object`.  Every call site invokes it on a fresh id
(absent key), where insert-or-replace coincides with `HSET mapping`. -/
def set_object (st : RedisState) (objId : String) (d : ObjData) : RedisState :=
  { st with objects := aupdate {} objId (fun _ => d) st.objects }

/-- `RedisClient.update_object_field`, specialised to a functional update of
the (total) modelled hash; creates the hash when missing, like `HSET`. -/
def update_object_field (st : RedisState) (objId : String) (g : ObjData → ObjData) :
    RedisState :=
  { st with objects := aupdate {} objId g st.objects }

/-- `RedisClient.add_view`: `ZADD obj:{id}:views {frame_id: timestamp}` —
updates the score in place when the member exists, otherwise adds it. -/
def zadd_view (zset : List (String × ℚ)) (frameId : String) (ts : ℚ) :
    List (String × ℚ) :=
  if (alookup frameId zset).isSome then
    zset.map (fun p => if p.1 = frameId then (frameId, ts) else p)
  else
    zset ++ [(frameId, ts)]

/-- `RedisClient.add_view` lifted to the whole store. -/
def add_view (st : RedisState) (objId frameId : String) (ts : ℚ) : RedisState :=
  { st with viewsZ := aupdate [] objId (fun z => zadd_view z frameId ts) st.viewsZ }

/-- `RedisClient.get_view_count`: `ZCARD` = number of members. -/
def get_view_count (st : RedisState) (objId : String) : Nat :=
  ((alookup objId st.viewsZ).getD []).length

/-- `RedisClient.get_metrics` (empty hash when missing). -/
def get_metrics (st : RedisState) (objId : String) : List (String × ℚ) :=
  (alookup objId st.metricsH).getD []

/-- `RedisClient.push_to_triage` (`LPUSH queue:triage`). -/
def push_to_triage (st : RedisState) (objId : String) : RedisState :=
  { st with triage := objId :: st.triage }

/-- `RedisClient.push_to_recon` (`LPUSH queue:recon`). -/
def push_to_recon (st : RedisState) (objId : String) : RedisState :=
  { st with recon := objId :: st.recon }

/-- `RedisClient.push_to_quarantine` (`LPUSH queue:quarantine` with a JSON
`{obj_id, reason}` payload). -/
def push_to_quarantine (st : RedisState) (objId reason : String) : RedisState :=
  { st with quarantineQ := (objId, reason) :: st.quarantineQ }

/-- The Object Brain's five configurable quality thresholds, with the
defaults from `ObjectBrain.__init__`. -/
structure Thresholds where
  orbitDegMin : ℚ := 240
  mvsConsistencyMax : ℚ := mkRat 1 10
  silhouetteIouMin : ℚ := mkRat 7 10
  textureCovMin : ℚ := mkRat 3 5
  scaleConfMin : ℚ := mkRat 4 5
  deriving DecidableEq, Repr

/-- Default thresholds (`ObjectBrain.__init__`). -/
def defaultThresholds : Thresholds := {}

/-- The per-threshold pass/fail breakdown (`checks` dict). -/
structure QualityChecks where
  orbitDeg : Bool
  mvsConsistency : Bool
  silhouetteIou : Bool
  textureCov : Bool
  scaleConf : Bool
  deriving DecidableEq, Repr

/-- The raw metric values echoed back by the check (`values` dict). -/
structure QualityValues where
  orbitDeg : ℚ
  mvsConsistency : ℚ
  silhouetteIou : ℚ
  textureCov : ℚ
  scaleConf : ℚ
  deriving DecidableEq, Repr

/-- The result dictionary of `check_quality_thresholds`. -/
structure ThresholdReport where
  meetsThresholds : Bool
  checks : QualityChecks
  values : QualityValues
  deriving DecidableEq, Repr

/-- `ObjectBrain.check_quality_thresholds`.  Returns `none` for a missing
object (the code returns `{'meets_thresholds': False, 'reason': 'Object not
found'}` there).  Raw values come from the object hash (`orbit_deg`,
`scale_conf`) and the metrics hash with the conservative defaults
`mvs_consistency → 1.0`, `silhouette_iou → 0.0`, `texture_cov → 0.0`. -/
def check_quality_thresholds (th : Thresholds) (st : RedisState) (objId : String) :
    Option ThresholdReport :=
  match get_object st objId with
  | none => none
  | some obj =>
    let metrics := get_metrics st objId
    let orbitDeg := obj.orbitDeg
    let mvsConsistency := (alookup "mvs_consistency" metrics).getD 1
    let silhouetteIou := (alookup "silhouette_iou" metrics).getD 0
    let textureCov := (alookup "texture_cov" metrics).getD 0
    let scaleConf := obj.scaleConf
    let checks : QualityChecks :=
      { orbitDeg := decide (th.orbitDegMin ≤ orbitDeg)
        mvsConsistency := decide (mvsConsistency ≤ th.mvsConsistencyMax)
        silhouetteIou := decide (th.silhouetteIouMin ≤ silhouetteIou)
        textureCov := decide (th.textureCovMin ≤ textureCov)
        scaleConf := decide (th.scaleConfMin ≤ scaleConf) }
    some
      { meetsThresholds := checks.orbitDeg && checks.mvsConsistency &&
          checks.silhouetteIou && checks.textureCov && checks.scaleConf
        checks := checks
        values :=
          { orbitDeg := orbitDeg
            mvsConsistency := mvsConsistency
            silhouetteIou := silhouetteIou
            textureCov := textureCov
            scaleConf := scaleConf } }

/-- The valid statuses accepted by `transition_status`. -/
def validStatuses : List String := ["pending", "observing", "ready", "quarantine"]

/-- `ObjectBrain.transition_status`.  `now` is the ISO timestamp that
`datetime.now().isoformat()` would produce; `reason` is `Option String`
(Python `None` default), and the audit entry is appended only under the
truthiness test `if reason:`, i.e. only for a non-empty reason.  Returns the
new store and the boolean result. -/
def transition_status (now : String) (st : RedisState) (objId newStatus : String)
    (reason : Option String) : RedisState × Bool :=
  if newStatus ∉ validStatuses then (st, false)
  else
    match get_object st objId with
    | none => (st, false)
    | some obj =>
      let oldStatus := obj.status
      let st1 := update_object_field st objId (fun o => { o with status := newStatus })
      let st2 :=
        match reason with
        | some r =>
          if r ≠ "" then
            update_object_field st1 objId (fun o =>
              { o with notes := o.notes ++
                  [{ fromStatus := oldStatus, toStatus := newStatus,
                     reason := r, timestamp := now }] })
          else st1
        | none => st1
      let st3 :=
        if newStatus = "quarantine" then
          push_to_quarantine st2 objId
            (match reason with
             | some r => if r ≠ "" then r else "Quality check failed"
             | none => "Quality check failed")
        else st2
      (st3, true)

/-- `ObjectBrain.force_admit`: transition to `observing` with the given
reason (default "Manual override") and push to the recon queue. -/
def force_admit (now : String) (st : RedisState) (objId reason : String) :
    RedisState × Bool :=
  match get_object st objId with
  | none => (st, false)
  | some _ =>
    let st1 := (transition_status now st objId "observing" (some reason)).1
    (push_to_recon st1 objId, true)

/-- `ObjectBrain.force_quarantine`: delegates to `transition_status` with
status `quarantine`. -/
def force_quarantine (now : String) (st : RedisState) (objId reason : String) :
    RedisState × Bool :=
  transition_status now st objId "quarantine" (some reason)

/-- `ObjectBrain._update_object_state`: initialise a missing object,
otherwise increment `views` and refresh `last_seen_ts`. -/
def update_object_state (st : RedisState) (objId : String) (ts : ℚ) : RedisState :=
  match get_object st objId with
  | none =>
    set_object st objId
      { className := "unknown", status := "pending", orbitDeg := 0, views := 1,
        bestFrames := none, confClass := 0, scaleConf := 0, lastSeenTs := ts,
        notes := [] }
  | some obj =>
    update_object_field st objId (fun o =>
      { o with views := obj.views + 1, lastSeenTs := ts })

/-- Observation-policy configuration of the brain
(`observation_window_sec = 30`, `observation_min_views = 10`). -/
structure BrainCfg where
  observationWindowSec : ℚ := 30
  observationMinViews : Nat := 10
  deriving DecidableEq, Repr

/-- The body of the per-object loop of `ObjectBrain.process_frame` (lines
87–105): `_update_object_state`, then the automatic status logic — a
`pending` object with `views ≥ 3` is switched to `observing` by a direct
`update_object_field` (not via `transition_status`) and pushed to triage; an
`observing` object is re-pushed to triage once `views ≥ observation_min_views`
or `age ≥ observation_window_sec`. -/
def process_frame_step (cfg : BrainCfg) (st : RedisState) (objId : String) (ts : ℚ) :
    RedisState :=
  let st1 := update_object_state st objId ts
  match get_object st1 objId with
  | none => st1
  | some obj =>
    let status := obj.status
    let views := obj.views
    if status = "pending" ∧ 3 ≤ views then
      push_to_triage
        (update_object_field st1 objId (fun o => { o with status := "observing" }))
        objId
    else if status = "observing" then
      let age := ts - obj.lastSeenTs
      if cfg.observationMinViews ≤ views ∨ cfg.observationWindowSec ≤ age then
        push_to_triage st1 objId
      else st1
    else st1

/-- A detector result (`DetectionResult`): bounding box `[x1, y1, x2, y2]`,
confidence, class label. -/
structure Detection where
  bbox : List ℚ
  confidence : ℚ
  className : String
  deriving DecidableEq, Repr

/-- One frame observation appended to a track
(`object_tracker.py`, `_update_track` / `_create_new_track`). -/
structure FrameObs where
  frameId : String
  bbox : List ℚ
  confidence : ℚ
  timestamp : ℚ
  deriving DecidableEq, Repr

/-- `ObjectTrack`: the tracker's per-object record. -/
structure ObjectTrack where
  objId : String
  className : String
  frames : List FrameObs
  orbitDeg : ℚ
  bestFrames : Option BestFrame
  lastSeenTs : ℚ
  deriving DecidableEq, Repr

/-- `ObjectTracker._calculate_iou`: IoU of two `[x1,y1,x2,y2]` boxes;
0 unless both lists have length exactly 4, 0 on empty intersection or
zero union. -/
def calculate_iou (bbox1 bbox2 : List ℚ) : ℚ :=
  match bbox1, bbox2 with
  | [x11, y11, x21, y21], [x12, y12, x22, y22] =>
    let x1i := max x11 x12
    let y1i := max y11 y12
    let x2i := min x21 x22
    let y2i := min y21 y22
    if x2i < x1i ∨ y2i < y1i then 0
    else
      let inter := (x2i - x1i) * (y2i - y1i)
      let area1 := (x21 - x11) * (y21 - y11)
      let area2 := (x22 - x12) * (y22 - y12)
      let uni := area1 + area2 - inter
      if uni = 0 then 0 else inter / uni
  | _, _ => 0

/-- The inner detection loop of `ObjectTracker._match_detections`: scan the
indexed detections, skip indices already claimed (`used`), and keep the
first index whose IoU strictly exceeds the best so far (initially `0.0`)
and meets the threshold. -/
def best_match_aux (τ : ℚ) (lastBbox : List ℚ) (used : List Nat) :
    List (Nat × Detection) → ℚ → Option Nat → Option Nat
  | [], _, best => best
  | (i, d) :: rest, bestIou, best =>
    if i ∈ used then best_match_aux τ lastBbox used rest bestIou best
    else
      let iou := calculate_iou lastBbox d.bbox
      if bestIou < iou ∧ τ ≤ iou then best_match_aux τ lastBbox used rest iou (some i)
      else best_match_aux τ lastBbox used rest bestIou best

/-- Best available detection for one track (`_match_detections` inner loop). -/
def best_match (τ : ℚ) (lastBbox : List ℚ) (dets : List Detection) (used : List Nat) :
    Option Nat :=
  best_match_aux τ lastBbox used dets.enum 0 none

/-- One iteration of the track loop of `ObjectTracker._match_detections`:
skip a track with no frames, otherwise find its best available detection
and, when one exists, record the pair and mark the detection used.  The
accumulator is `(matched pairs, used detection indices)`. -/
def matchStep (τ : ℚ) (dets : List Detection)
    (acc : List (String × Nat) × List Nat) (p : String × ObjectTrack) :
    List (String × Nat) × List Nat :=
  match p.2.frames.getLast? with
  | none => acc
  | some lastFrame =>
    match best_match τ lastFrame.bbox dets acc.2 with
    | none => acc
    | some i => (acc.1 ++ [(p.1, i)], acc.2 ++ [i])

/-- `ObjectTracker._match_detections`: fold over the tracks in insertion
order (Python dicts preserve insertion order), greedily assigning each
track its best available detection.  (The `if not self.tracks: return {}`
guard is the empty fold.) -/
def match_detections (τ : ℚ) (tracks : List (String × ObjectTrack))
    (dets : List Detection) : List (String × Nat) :=
  (tracks.foldl (matchStep τ dets) ([], [])).1

/-- Center of a bbox with at least 4 coordinates (`_calculate_orbit`). -/
def bboxCenter (bbox : List ℚ) : Option (ℚ × ℚ) :=
  match bbox with
  | x1 :: y1 :: x2 :: y2 :: _ => some ((x1 + x2) / 2, (y1 + y2) / 2)
  | _ => none

/-- Bbox centers of a track's observations (`_calculate_orbit`). -/
def orbitCenters (frames : List FrameObs) : List (ℚ × ℚ) :=
  frames.filterMap (fun fr => bboxCenter fr.bbox)

/-- Angles (in degrees, via the abstract `atan2` in degrees `f`) of each
center relative to the centroid of all centers (`_calculate_orbit`). -/
def orbitAngles (f : ℚ → ℚ → ℚ) (centers : List (ℚ × ℚ)) : List ℚ :=
  let cx := listMean (centers.map Prod.fst)
  let cy := listMean (centers.map Prod.snd)
  centers.map (fun c => f (c.2 - cy) (c.1 - cx))

/-- The wrap-around gaps `(a[(i+1) % n] - a[i]) % 360` of a (sorted) angle
list (`_calculate_orbit`). -/
def wrapGaps (as : List ℚ) : List ℚ :=
  (as.zip (as.rotate 1)).map (fun p => fmod (p.2 - p.1) 360)

/-- `max_gap`: running maximum of the wrap-around gaps, starting at `0.0`. -/
def max_gap (as : List ℚ) : ℚ := (wrapGaps as).foldl max 0

/-- `ObjectTracker._calculate_orbit` with the degree-valued `atan2`
abstracted as `f` (the code computes `math.atan2(dy, dx) * 180 / pi` in
floating point; `IsAtan2Deg` below pins `f` down on the axes, where the
exact values are known). -/
def calculate_orbit (f : ℚ → ℚ → ℚ) (frames : List FrameObs) : ℚ :=
  if frames.length < 2 then 0
  else
    let centers := orbitCenters frames
    if centers.length < 2 then 0
    else
      let angles := orbitAngles f centers
      if angles = [] then 0
      else
        let sorted := List.insertionSort (· ≤ ·) angles
        let coverage := 360 - max_gap sorted
        min coverage 360

/-- Exact values of `math.atan2(dy, dx) * 180 / pi` on the coordinate axes;
the only constraint the claims need on the abstract angle primitive. -/
def IsAtan2Deg (f : ℚ → ℚ → ℚ) : Prop :=
  (∀ x, 0 < x → f 0 x = 0) ∧ (∀ y, 0 < y → f y 0 = 90) ∧
  (∀ x, x < 0 → f 0 x = 180) ∧ (∀ y, y < 0 → f y 0 = -90)

/-- A concrete computable angle function agreeing with `atan2` (in degrees)
on the coordinate axes; used to instantiate witnesses. -/
def atan2degAxes (dy dx : ℚ) : ℚ :=
  if 0 < dx ∧ dy = 0 then 0
  else if 0 < dy ∧ dx = 0 then 90
  else if dx < 0 ∧ dy = 0 then 180
  else if dy < 0 ∧ dx = 0 then -90
  else 0

/-- `ObjectTracker._update_best_frames` with the frame score
`confidence * sqrt(bbox_area)` abstracted as `score` (square roots are
irrational; no claim depends on the score's value). -/
def update_best_frames (score : ℚ → ℚ → ℚ) (track : ObjectTrack)
    (frameId : String) (d : Detection) : ObjectTrack :=
  let area :=
    match d.bbox with
    | x1 :: y1 :: x2 :: y2 :: _ => (x2 - x1) * (y2 - y1)
    | _ => 0
  let s := score d.confidence area
  match track.bestFrames with
  | none => { track with bestFrames := some { frameId := frameId, score := s } }
  | some bf =>
    if bf.score < s then { track with bestFrames := some { frameId := frameId, score := s } }
    else track

/-- Tracker configuration: IoU threshold (default 0.5), max track age
(default 30), and the two abstracted numeric primitives. -/
structure TrackerCfg where
  iouThreshold : ℚ := mkRat 1 2
  maxAge : ℚ := 30
  atan2deg : ℚ → ℚ → ℚ
  score : ℚ → ℚ → ℚ

/-- The tracker's state: its tracks (a Python dict in insertion order) plus
the ephemeral store it writes through to. -/
structure TrackerState where
  tracks : List (String × ObjectTrack)
  redis : RedisState

/-- A track with no frames yet, as built by the defensive
`if obj_id not in self.tracks` branch of `_update_track`. -/
def emptyTrack (objId className : String) (ts : ℚ) : ObjectTrack :=
  { objId := objId, className := className, frames := [], orbitDeg := 0,
    bestFrames := none, lastSeenTs := ts }

/-- `ObjectTracker._update_track`'s body applied to an actual detection:
append the observation, refresh `last_seen_ts`, recompute the orbit, update
the best frame, then mirror `views`/`orbit_deg`/`last_seen_ts`/`best_frames`
and the view ZSET into the ephemeral store.  Note the method's only caller,
`update`, in fact passes the detection INDEX (an `int`), so in the program
this body always raises `AttributeError` at `detection.bbox` before its
first mutation; see `tracker_update`. -/
def update_track (cfg : TrackerCfg) (st : TrackerState) (objId frameId : String)
    (d : Detection) (ts : ℚ) : TrackerState :=
  let tracks0 :=
    if (alookup objId st.tracks).isSome then st.tracks
    else st.tracks ++ [(objId, emptyTrack objId d.className ts)]
  let obs : FrameObs :=
    { frameId := frameId, bbox := d.bbox, confidence := d.confidence, timestamp := ts }
  let tracks1 := aupdate (emptyTrack objId d.className ts) objId (fun tr =>
      let tr1 := { tr with frames := tr.frames ++ [obs], lastSeenTs := ts }
      let tr2 := { tr1 with orbitDeg := calculate_orbit cfg.atan2deg tr1.frames }
      update_best_frames cfg.score tr2 frameId d) tracks0
  let newTrack := (alookup objId tracks1).getD (emptyTrack objId d.className ts)
  let r0 := add_view st.redis objId frameId ts
  let r1 := update_object_field r0 objId (fun o => { o with orbitDeg := newTrack.orbitDeg })
  let r2 := update_object_field r1 objId (fun o => { o with views := newTrack.frames.length })
  let r3 := update_object_field r2 objId (fun o => { o with lastSeenTs := ts })
  let r4 := update_object_field r3 objId (fun o => { o with bestFrames := newTrack.bestFrames })
  { tracks := tracks1, redis := r4 }

/-- `ObjectTracker._create_new_track` with the generated UUID passed in as
`objId`: build the one-observation track, initialise the object hash
(status `pending`, 1 view), and record the view. -/
def create_new_track (st : TrackerState) (objId frameId : String)
    (d : Detection) (ts : ℚ) : TrackerState :=
  let obs : FrameObs :=
    { frameId := frameId, bbox := d.bbox, confidence := d.confidence, timestamp := ts }
  let track : ObjectTrack :=
    { objId := objId, className := d.className, frames := [obs], orbitDeg := 0,
      bestFrames := none, lastSeenTs := ts }
  let r0 := set_object st.redis objId
    { className := d.className, status := "pending", orbitDeg := 0, views := 1,
      bestFrames := none, confClass := d.confidence, scaleConf := 0,
      lastSeenTs := ts, notes := [] }
  let r1 := add_view r0 objId frameId ts
  { tracks := st.tracks ++ [(objId, track)], redis := r1 }

/-- `ObjectTracker._remove_stale_tracks`: drop tracks whose age exceeds
`max_age` (hot state only; the store is untouched). -/
def remove_stale_tracks (cfg : TrackerCfg) (ts : ℚ) (st : TrackerState) : TrackerState :=
  { st with tracks := st.tracks.filter (fun p => decide (ts - p.2.lastSeenTs ≤ cfg.maxAge)) }

/-- `ObjectTracker.update` with fresh track ids supplied by `freshIds`
(the code draws `uuid4` strings).  `_match_detections` returns a dict from
track id to the best detection INDEX (`matched[obj_id] = best_detection_idx`),
and `update` then iterates `matched_tracks.items()`, passing that raw `int`
straight into `_update_track`, whose construction of the frame observation
dereferences `detection.bbox` on the `int` and raises `AttributeError`
(`DetectionResult` is a plain dataclass, so there is no fallback) before
any state has been mutated.  Hence the whole call fails — modelled as
`none` — whenever at least one detection matched an existing track; only
when nothing matched does it proceed: every detection is then unmatched,
so a new track is created for each (in detection index order), stale
tracks are removed, and the new ids are returned. -/
def tracker_update (cfg : TrackerCfg) (freshIds : Nat → String) (st : TrackerState)
    (frameId : String) (dets : List Detection) (ts : ℚ) :
    Option (TrackerState × List String) :=
  let matched := match_detections cfg.iouThreshold st.tracks dets
  if matched = [] then
    let matchedIdx := matched.map Prod.snd
    let newPairs := dets.enum.filter (fun p => !(decide (p.1 ∈ matchedIdx)))
    let st2 := newPairs.enum.foldl (fun s q =>
        create_new_track s (freshIds q.1) frameId q.2.2 ts) st
    let newIds := newPairs.enum.map (fun q => freshIds q.1)
    let st3 := remove_stale_tracks cfg ts st2
    some (st3, matched.map Prod.fst ++ newIds)
  else none

/-- A camera pose dictionary (`quality_metrics.py`): an optional
`translation` vector and/or an optional `extrinsic` matrix. -/
structure Pose where
  translation : Option (List ℚ) := none
  extrinsic : Option (List (List ℚ)) := none
  deriving DecidableEq, Repr

/-- `QualityMetricsCalculator.calculate_mvs_consistency`: 1.0 with fewer
than 2 depth maps, else the variance of all positive depth samples
normalised by the squared mean, capped at 1.  (The `poses`/`intrinsics`
arguments only feed `_depth_to_3d_points`, whose result is discarded.) -/
def calculate_mvs_consistency (depthMaps : List (List ℚ)) (_poses : List Pose)
    (_intrinsics : List (List (List ℚ))) : ℚ :=
  if depthMaps.length < 2 then 1
  else
    let allDepths := depthMaps.foldl (fun acc dm => acc ++ dm.filter (fun d => decide (0 < d))) []
    if allDepths.length = 0 then 1
    else
      let depthMean := listMean allDepths
      if depthMean = 0 then 1
      else min (listVariance allDepths / depthMean ^ 2) 1

/-- `QualityMetricsCalculator._mask_iou` on flattened equal-size masks. -/
def mask_iou (m1 m2 : List Bool) : ℚ :=
  let inter := ((m1.zip m2).filter (fun p => p.1 && p.2)).length
  let uni := ((m1.zip m2).filter (fun p => p.1 || p.2)).length
  if uni = 0 then 0 else (inter : ℚ) / uni

/-- `QualityMetricsCalculator._bbox_iou` (first four coordinates; 0 when
either box has fewer than 4). -/
def bbox_iou (bbox1 bbox2 : List ℚ) : ℚ :=
  match bbox1, bbox2 with
  | x11 :: y11 :: x21 :: y21 :: _, x12 :: y12 :: x22 :: y22 :: _ =>
    let x1i := max x11 x12
    let y1i := max y11 y12
    let x2i := min x21 x22
    let y2i := min y21 y22
    if x2i < x1i ∨ y2i < y1i then 0
    else
      let inter := (x2i - x1i) * (y2i - y1i)
      let area1 := (x21 - x11) * (y21 - y11)
      let area2 := (x22 - x12) * (y22 - y12)
      let uni := area1 + area2 - inter
      if uni = 0 then 0 else inter / uni
  | _, _ => 0

/-- `QualityMetricsCalculator.calculate_silhouette_iou`: 0.0 with fewer
than 2 masks; else mean pairwise mask IoU when all masks are present,
falling through to mean pairwise bbox IoU, else 0. -/
def calculate_silhouette_iou (masks : List (Option (List Bool)))
    (bboxes : List (List ℚ)) : ℚ :=
  if masks.length < 2 then 0
  else
    let maskIous :=
      if masks ≠ [] ∧ masks.all (fun m => m.isSome) then
        pairwiseVals mask_iou (masks.filterMap id)
      else []
    if maskIous ≠ [] then listMean maskIous
    else
      let bboxIous :=
        if bboxes ≠ [] ∧ 2 ≤ bboxes.length then pairwiseVals bbox_iou bboxes
        else []
      if bboxIous ≠ [] then listMean bboxIous else 0

/-- `QualityMetricsCalculator.calculate_photometric_error`: 1.0 with fewer
than 2 images; the histogram/chi-squared body (data-dependent binning) is
abstracted as `body` — no claim depends on it. -/
def calculate_photometric_error (body : List (List ℚ) → ℚ) (images : List (List ℚ))
    (_poses : List Pose) (_intrinsics : List (List (List ℚ))) : ℚ :=
  if images.length < 2 then 1 else body images

/-- `QualityMetricsCalculator.calculate_depth_variance`: 1.0 with fewer
than 2 depth maps, else the normalised variance of all positive depth
samples, capped at 1. -/
def calculate_depth_variance (depthMaps : List (List ℚ)) : ℚ :=
  if depthMaps.length < 2 then 1
  else
    let allDepths := depthMaps.foldl (fun acc dm => acc ++ dm.filter (fun d => decide (0 < d))) []
    if allDepths.length = 0 then 1
    else
      let depthMean := listMean allDepths
      if depthMean = 0 then 1
      else min (listVariance allDepths / depthMean ^ 2) 1

/-- `QualityMetricsCalculator.calculate_pose_spread`: 0.0 with fewer than 2
poses; the position-extraction and angular-coverage body (uses
`atan2`/vector norms) is abstracted as `body` — no claim depends on it. -/
def calculate_pose_spread (body : List Pose → ℚ) (poses : List Pose) : ℚ :=
  if poses.length < 2 then 0 else body poses

/-- `QualityMetricsCalculator.calculate_scale_confidence`: 0.0 on no boxes;
0.5 when fewer than 2 boxes have ≥ 4 coordinates (a single view); else
`1 - min(var(sizes)/mean(sizes)^2, 1)` clamped to `[0, 1]` (0.0 on zero
mean size). -/
def calculate_scale_confidence (bboxes : List (List ℚ)) (_depths : Option (List ℚ)) : ℚ :=
  if bboxes = [] then 0
  else
    let sizes := bboxes.filterMap (fun b =>
      match b with
      | x1 :: y1 :: x2 :: y2 :: _ => some ((x2 - x1) * (y2 - y1))
      | _ => none)
    if sizes.length < 2 then 1/2
    else
      let sizeVariance := listVariance sizes
      let sizeMean := listMean sizes
      if sizeMean = 0 then 0
      else
        let normalizedVariance := min (sizeVariance / sizeMean ^ 2) 1
        max 0 (min 1 (1 - normalizedVariance))

/-- An object record buffered for the durable store
(`object_persistence.py`, `sync_object`).  The JSON-encoded `notes` payload
is carried as the audit list itself. -/
structure ObjRecord where
  id : String
  className : String
  status : String
  finalAssetPath : Option String := none
  notes : List AuditEntry := []
  deriving DecidableEq, Repr

/-- `ObjectPersistence` state: the object buffer, the durable `objects`
table keyed by id, and a counter of committed object flushes. -/
structure PersistState where
  objectBuffer : List ObjRecord := []
  objectsDb : List (String × ObjRecord) := []
  flushCount : Nat := 0
  deriving DecidableEq, Repr

/-- `ObjectPersistence.buffer_size` (default 100). -/
def bufferSize : Nat := 100

/-- The `INSERT ... ON CONFLICT (id) DO UPDATE` batch upsert of
`flush_objects`. -/
def upsert_records (db : List (String × ObjRecord)) (records : List ObjRecord) :
    List (String × ObjRecord) :=
  records.foldl (fun d r => aupdate r r.id (fun _ => r) d) db

/-- `ObjectPersistence.flush_objects`: no-op on an empty buffer; on success
commit the batch upsert, clear the buffer and count one committed flush; on
a database error (`dbOk = false`) roll back the transaction — the table is
unchanged and `self.object_buffer.clear()` is never reached, so every
buffered record is retained. -/
def flush_objects (dbOk : Bool) (s : PersistState) : PersistState :=
  if s.objectBuffer = [] then s
  else if dbOk then
    { objectsDb := upsert_records s.objectsDb s.objectBuffer,
      objectBuffer := [], flushCount := s.flushCount + 1 }
  else s

/-- `ObjectPersistence.sync_object`: no-op when the object is missing from
the ephemeral store; with `force = true` the code calls `self._insert_object`,
a method that does not exist anywhere in the class — that path raises
`AttributeError`, modelled as `none`; with `force = false` the record is
buffered and the buffer auto-flushes once it reaches `buffer_size`. -/
def sync_object (dbOk : Bool) (redis : RedisState) (s : PersistState)
    (objId : String) (force : Bool) : Option PersistState :=
  match get_object redis objId with
  | none => some s
  | some obj =>
    let record : ObjRecord :=
      { id := objId, className := obj.className, status := obj.status,
        finalAssetPath := none, notes := obj.notes }
    if force then none
    else
      let s1 := { s with objectBuffer := s.objectBuffer ++ [record] }
      some (if bufferSize ≤ s1.objectBuffer.length then flush_objects dbOk s1 else s1)

/-- A sequence of buffered (`force = false`) `sync_object` calls. -/
def sync_run (dbOk : Bool) (redis : RedisState) (ids : List String)
    (s : PersistState) : PersistState :=
  ids.foldl (fun st oid => (sync_object dbOk redis st oid false).getD st) s

/-- A sequence of `add_view` calls for one object. -/
def add_view_run (objId : String) (calls : List (String × ℚ)) (st : RedisState) :
    RedisState :=
  calls.foldl (fun s c => add_view s objId c.1 c.2) st

/-- Example object of the threshold-gating test: `orbit_deg = 250`,
`scale_conf = 0.9`. -/
def exObjPass : ObjData := { orbitDeg := 250, scaleConf := mkRat 9 10 }

/-- Example metrics of the threshold-gating test:
`mvs_consistency = 0.05`, `silhouette_iou = 0.8`, `texture_cov = 0.7`. -/
def exMetricsPass : List (String × ℚ) :=
  [("mvs_consistency", mkRat 1 20), ("silhouette_iou", mkRat 4 5),
   ("texture_cov", mkRat 7 10)]

/-- Store holding the passing example object. -/
def exStPass : RedisState :=
  { objects := [("o1", exObjPass)], metricsH := [("o1", exMetricsPass)] }

/-- Same store with `silhouette_iou` lowered to `0.5`. -/
def exStFail : RedisState :=
  { objects := [("o1", exObjPass)],
    metricsH := [("o1",
      [("mvs_consistency", mkRat 1 20), ("silhouette_iou", mkRat 1 2),
       ("texture_cov", mkRat 7 10)])] }

/-- A pending object with two views and an empty audit log, about to cross
the `views ≥ 3` line on the next processed frame. -/
def exC4St : RedisState := { objects := [("o1", { views := 2 })] }

/-- A store with one freshly created (pending) object. -/
def exQSt : RedisState := { objects := [("o1", {})] }

/-- Concrete tracker configuration for witnesses (the abstract primitives
instantiated with computable stand-ins). -/
def exCfg : TrackerCfg :=
  { atan2deg := atan2degAxes, score := fun c a => c * a }

/-- Four observations whose bbox centers sit at angles 0°, 90°, 180°, 270°
around their centroid (the origin). -/
def exFourFrames : List FrameObs :=
  [ { frameId := "f1", bbox := [0, -1, 2, 1], confidence := 1, timestamp := 1 },
    { frameId := "f2", bbox := [-1, 0, 1, 2], confidence := 1, timestamp := 2 },
    { frameId := "f3", bbox := [-2, -1, 0, 1], confidence := 1, timestamp := 3 },
    { frameId := "f4", bbox := [-1, -2, 1, 0], confidence := 1, timestamp := 4 } ]

/-- A single observation, for the `orbit_deg = 0` boundary case. -/
def exOneFrame : FrameObs :=
  { frameId := "f1", bbox := [0, 0, 2, 2], confidence := 1, timestamp := 1 }

/-- Lookup after updating the same key. -/
theorem alookup_aupdate_self (dflt : β) (k : String) (g : β → β) (l : List (String × β)) :
    alookup k (aupdate dflt k g l) = some (g ((alookup k l).getD dflt)) := by
  induction l with
  | nil => simp [alookup, aupdate]
  | cons p rest ih =>
    obtain ⟨k', v⟩ := p
    by_cases h : k' = k
    · subst h; simp [alookup, aupdate]
    · simp [alookup, aupdate, h, ih]

/-- Lookup after updating a different key. -/
theorem alookup_aupdate_ne (dflt : β) (k k' : String) (g : β → β)
    (l : List (String × β)) (h : k' ≠ k) :
    alookup k' (aupdate dflt k g l) = alookup k' l := by
  have hks : ¬ (k = k') := fun hh => h hh.symm
  induction l with
  | nil => simp [alookup, aupdate, hks]
  | cons p rest ih =>
    obtain ⟨k0, v⟩ := p
    by_cases h0 : k0 = k
    · subst h0
      simp [alookup, aupdate, hks]
    · by_cases h1 : k0 = k'
      · simp [alookup, aupdate, h0, h1, h]
      · simp [alookup, aupdate, h0, h1, ih]

/-- Claim C1 — `check_quality_thresholds` returns `meets_thresholds = true`
iff all five individual checks pass, together with the per-threshold
breakdown and the raw values; on the example object
(`orbit_deg=250, mvs_consistency=0.05, silhouette_iou=0.8, texture_cov=0.7,
scale_conf=0.9`) the default thresholds yield `meets_thresholds = true`,
and lowering `silhouette_iou` to `0.5` flips only the `silhouette_iou`
check to `false` and the overall verdict to `false`. -/
theorem check_quality_thresholds_correct :
    (∀ th st objId rep, check_quality_thresholds th st objId = some rep →
      rep.meetsThresholds = (rep.checks.orbitDeg && rep.checks.mvsConsistency &&
        rep.checks.silhouetteIou && rep.checks.textureCov && rep.checks.scaleConf) ∧
      (rep.checks.orbitDeg = true ↔ th.orbitDegMin ≤ rep.values.orbitDeg) ∧
      (rep.checks.mvsConsistency = true ↔ rep.values.mvsConsistency ≤ th.mvsConsistencyMax) ∧
      (rep.checks.silhouetteIou = true ↔ th.silhouetteIouMin ≤ rep.values.silhouetteIou) ∧
      (rep.checks.textureCov = true ↔ th.textureCovMin ≤ rep.values.textureCov) ∧
      (rep.checks.scaleConf = true ↔ th.scaleConfMin ≤ rep.values.scaleConf)) ∧
    (∀ th st objId obj, get_object st objId = some obj →
      ∃ rep, check_quality_thresholds th st objId = some rep ∧
        rep.values.orbitDeg = obj.orbitDeg ∧
        rep.values.scaleConf = obj.scaleConf ∧
        rep.values.mvsConsistency = (alookup "mvs_consistency" (get_metrics st objId)).getD 1 ∧
        rep.values.silhouetteIou = (alookup "silhouette_iou" (get_metrics st objId)).getD 0 ∧
        rep.values.textureCov = (alookup "texture_cov" (get_metrics st objId)).getD 0) ∧
    (check_quality_thresholds defaultThresholds exStPass "o1").map
      ThresholdReport.meetsThresholds = some true ∧
    (check_quality_thresholds defaultThresholds exStPass "o1").map
      ThresholdReport.checks = some ⟨true, true, true, true, true⟩ ∧
    (check_quality_thresholds defaultThresholds exStFail "o1").map
      ThresholdReport.meetsThresholds = some false ∧
    (check_quality_thresholds defaultThresholds exStFail "o1").map
      ThresholdReport.checks = some ⟨true, true, false, true, true⟩ := by
  refine ⟨?_, ?_, by decide, by decide, by decide, by decide⟩
  · intro th st objId rep h
    unfold check_quality_thresholds at h
    cases hobj : get_object st objId with
    | none => rw [hobj] at h; exact absurd h (by simp)
    | some obj =>
      rw [hobj] at h
      simp only [Option.some_inj] at h
      subst h
      refine ⟨rfl, ?_, ?_, ?_, ?_, ?_⟩ <;> exact decide_eq_true_iff
  · intro th st objId obj hobj
    unfold check_quality_thresholds
    rw [hobj]
    exact ⟨_, rfl, rfl, rfl, rfl, rfl, rfl⟩

/-- Witness for Claim C1: the general part evaluated at the example store. -/
theorem check_quality_thresholds_correct_witness :
    ∃ rep, check_quality_thresholds defaultThresholds exStPass "o1" = some rep ∧
      rep.values.orbitDeg = exObjPass.orbitDeg ∧
      rep.values.scaleConf = exObjPass.scaleConf ∧
      rep.values.mvsConsistency = (alookup "mvs_consistency" (get_metrics exStPass "o1")).getD 1 ∧
      rep.values.silhouetteIou = (alookup "silhouette_iou" (get_metrics exStPass "o1")).getD 0 ∧
      rep.values.textureCov = (alookup "texture_cov" (get_metrics exStPass "o1")).getD 0 :=
  check_quality_thresholds_correct.2.1 defaultThresholds exStPass "o1" exObjPass (by decide)

/-- Claim C6 — every quality metric returns its conservative default on
insufficient evidence: `mvs_consistency = 1.0` and `depth_variance = 1.0`
with fewer than 2 depth maps, `photometric_error = 1.0` with fewer than 2
images, `silhouette_iou = 0.0` with fewer than 2 masks, `pose_spread = 0.0`
with fewer than 2 poses, and `scale_confidence = 0.5` on a single bounding
box. -/
theorem quality_metrics_insufficient_evidence :
    (∀ depthMaps poses inr, depthMaps.length < 2 →
      calculate_mvs_consistency depthMaps poses inr = 1) ∧
    (∀ body images poses inr, images.length < 2 →
      calculate_photometric_error body images poses inr = 1) ∧
    (∀ masks bboxes, masks.length < 2 → calculate_silhouette_iou masks bboxes = 0) ∧
    (∀ depthMaps, depthMaps.length < 2 → calculate_depth_variance depthMaps = 1) ∧
    (∀ body poses, poses.length < 2 → calculate_pose_spread body poses = 0) ∧
    (∀ b depths, calculate_scale_confidence [b] depths = 1/2) := by
  refine ⟨?_, ?_, ?_, ?_, ?_, ?_⟩
  · intro depthMaps poses inr h
    unfold calculate_mvs_consistency
    rw [if_pos h]
  · intro body images poses inr h
    unfold calculate_photometric_error
    rw [if_pos h]
  · intro masks bboxes h
    unfold calculate_silhouette_iou
    rw [if_pos h]
  · intro depthMaps h
    unfold calculate_depth_variance
    rw [if_pos h]
  · intro body poses h
    unfold calculate_pose_spread
    rw [if_pos h]
  · intro b depths
    unfold calculate_scale_confidence
    rw [if_neg (by simp)]
    match b with
    | [] => simp
    | [x1] => simp
    | [x1, y1] => simp
    | [x1, y1, x2] => simp
    | x1 :: y1 :: x2 :: y2 :: rest => simp

/-- Witness for Claim C6: the guards evaluated on concrete degenerate
inputs. -/
theorem quality_metrics_insufficient_evidence_witness :
    calculate_mvs_consistency [[1, 2]] [] [] = 1 ∧
    calculate_photometric_error (fun _ => 0) [[1]] [] [] = 1 ∧
    calculate_silhouette_iou [some [true]] [[0, 0, 1, 1]] = 0 ∧
    calculate_depth_variance [[1, 2]] = 1 ∧
    calculate_pose_spread (fun _ => 0) [{ translation := some [1, 0, 0] }] = 0 ∧
    calculate_scale_confidence [[0, 0, 2, 3]] none = 1/2 :=
  ⟨quality_metrics_insufficient_evidence.1 [[1, 2]] [] [] (by decide),
   quality_metrics_insufficient_evidence.2.1 (fun _ => 0) [[1]] [] [] (by decide),
   quality_metrics_insufficient_evidence.2.2.1 [some [true]] [[0, 0, 1, 1]] (by decide),
   quality_metrics_insufficient_evidence.2.2.2.1 [[1, 2]] (by decide),
   quality_metrics_insufficient_evidence.2.2.2.2.1 (fun _ => 0)
     [{ translation := some [1, 0, 0] }] (by decide),
   quality_metrics_insufficient_evidence.2.2.2.2.2 [0, 0, 2, 3] none⟩

/-- A field update that leaves `notes` alone leaves every object's audit
log alone. -/
theorem notes_preserved_update (st : RedisState) (k : String) (g : ObjData → ObjData)
    (oid2 : String) (obj2 : ObjData) (hg : ∀ o, (g o).notes = o.notes)
    (hobj : get_object st oid2 = some obj2) :
    (get_object (update_object_field st k g) oid2).map ObjData.notes = some obj2.notes := by
  by_cases hk : oid2 = k
  · subst hk
    unfold get_object update_object_field at *
    rw [alookup_aupdate_self, hobj]
    simp [hg]
  · unfold get_object update_object_field at *
    rw [alookup_aupdate_ne _ _ _ _ _ hk, hobj]
    rfl

/-- Effect of a successful `transition_status` with a non-empty reason: the
boolean is true, the status becomes `newStatus`, and exactly one audit
entry `{from := old status, to := newStatus, reason, timestamp}` is
appended. -/
theorem transition_status_apply (now : String) (st : RedisState)
    (objId newStatus r : String) (obj : ObjData) (hv : newStatus ∈ validStatuses)
    (hobj : get_object st objId = some obj) (hr : r ≠ "") :
    (transition_status now st objId newStatus (some r)).2 = true ∧
    get_object (transition_status now st objId newStatus (some r)).1 objId =
      some { obj with status := newStatus,
                      notes := obj.notes ++
                        [{ fromStatus := obj.status, toStatus := newStatus,
                           reason := r, timestamp := now }] } := by
  have hobj2 : alookup objId st.objects = some obj := hobj
  unfold transition_status
  rw [if_neg (fun hc => hc hv), hobj]
  refine ⟨rfl, ?_⟩
  by_cases hq : newStatus = "quarantine" <;>
    simp [hq, hr, get_object, update_object_field, push_to_quarantine,
      alookup_aupdate_self, hobj2]

/-- `transition_status` without a reason changes the status (when valid)
but never touches the audit log. -/
theorem transition_status_none_notes (now : String) (st : RedisState)
    (objId newStatus : String) (obj : ObjData)
    (hobj : get_object st objId = some obj) :
    (get_object (transition_status now st objId newStatus none).1 objId).map
      ObjData.notes = some obj.notes := by
  have hobj2 : alookup objId st.objects = some obj := hobj
  unfold transition_status
  by_cases hv : newStatus ∉ validStatuses
  · rw [if_pos hv]
    simp [hobj]
  · rw [if_neg hv, hobj]
    by_cases hq : newStatus = "quarantine" <;>
      simp [hq, get_object, update_object_field, push_to_quarantine,
        alookup_aupdate_self, hobj2]

/-- Claim C4 counterexample — a pending object with 2 views and an empty
audit log: processing one more frame performs the automatic
`pending → observing` transition (status changes, the id is pushed to
triage) yet appends no audit entry, because `process_frame` flips the
status field directly instead of calling `transition_status`. -/
theorem process_frame_skips_audit_counterexample :
    (get_object exC4St "o1").map ObjData.status = some "pending" ∧
    (get_object (process_frame_step {} exC4St "o1" 5) "o1").map ObjData.status =
      some "observing" ∧
    (process_frame_step {} exC4St "o1" 5).triage = ["o1"] ∧
    (get_object (process_frame_step {} exC4St "o1" 5) "o1").map ObjData.notes =
      some [] := by
  decide

/-- Claim C4 (amended) — transitions performed through `transition_status`
with a non-empty reason append exactly one `{from, to, reason, timestamp}`
audit entry, and `force_admit` / `force_quarantine` (which pass their
reason through) do as well; but `transition_status` without a reason
appends nothing, and the automatic `pending → observing` transition applied
during frame processing appends nothing — frame processing never touches
any object's audit log. -/
theorem transition_audit_amended :
    (∀ now st objId newStatus r obj, newStatus ∈ validStatuses →
      get_object st objId = some obj → r ≠ "" →
      (get_object (transition_status now st objId newStatus (some r)).1 objId).map
          ObjData.notes =
        some (obj.notes ++
          [{ fromStatus := obj.status, toStatus := newStatus, reason := r,
             timestamp := now }])) ∧
    (∀ now st objId r obj, get_object st objId = some obj → r ≠ "" →
      (get_object ( force_admit now st objId r).1 objId).map ObjData.notes =
        some (obj.notes ++
          [{ fromStatus := obj.status, toStatus := "observing", reason := r,
             timestamp := now }])) ∧
    (∀ now st objId r obj, get_object st objId = some obj → r ≠ "" →
      (get_object (force_quarantine now st objId r).1 objId).map ObjData.notes =
        some (obj.notes ++
          [{ fromStatus := obj.status, toStatus := "quarantine", reason := r,
             timestamp := now }])) ∧
    (∀ now st objId newStatus obj, get_object st objId = some obj →
      (get_object (transition_status now st objId newStatus none).1 objId).map
        ObjData.notes = some obj.notes) ∧
    (∀ cfg st objId ts oid2 obj2, get_object st oid2 = some obj2 →
      (get_object (process_frame_step cfg st objId ts) oid2).map ObjData.notes =
        some obj2.notes) := by
  refine ⟨?_, ?_, ?_, ?_, ?_⟩
  · intro now st objId newStatus r obj hv hobj hr
    rw [(transition_status_apply now st objId newStatus r obj hv hobj hr).2]
    rfl
  · intro now st objId r obj hobj hr
    unfold force_admit
    rw [hobj]
    have h := transition_status_apply now st objId "observing" r obj (by decide) hobj hr
    simp only [push_to_recon, get_object] at *
    rw [h.2]
    rfl
  · intro now st objId r obj hobj hr
    unfold force_quarantine
    rw [(transition_status_apply now st objId "quarantine" r obj (by decide) hobj hr).2]
    rfl
  · intro now st objId newStatus obj hobj
    exact transition_status_none_notes now st objId newStatus obj hobj
  · intro cfg st objId ts oid2 obj2 hobj
    unfold process_frame_step update_object_state
    cases h0 : get_object st objId with
    | none =>
      have hne : oid2 ≠ objId := by
        intro hh; rw [hh, h0] at hobj; cases hobj
      have hset : get_object (set_object st objId
          { className := "unknown", status := "pending", orbitDeg := 0, views := 1,
            bestFrames := none, confClass := 0, scaleConf := 0, lastSeenTs := ts,
            notes := [] }) oid2 = some obj2 := by
        unfold get_object set_object at *
        rw [alookup_aupdate_ne _ _ _ _ _ hne]
        exact hobj
      have hself : get_object (set_object st objId
          { className := "unknown", status := "pending", orbitDeg := 0, views := 1,
            bestFrames := none, confClass := 0, scaleConf := 0, lastSeenTs := ts,
            notes := [] }) objId =
          some { className := "unknown", status := "pending", orbitDeg := 0, views := 1,
                 bestFrames := none, confClass := 0, scaleConf := 0, lastSeenTs := ts,
                 notes := [] } := by
        unfold get_object set_object
        rw [alookup_aupdate_self]
      dsimp only
      rw [hself]
      dsimp only
      rw [if_neg (by decide), if_neg (by decide), hset]
      rfl
    | some obj0 =>
      dsimp only
      set g : ObjData → ObjData :=
        fun o => { o with views := obj0.views + 1, lastSeenTs := ts } with hg
      have hgn : ∀ o, (g o).notes = o.notes := fun o => rfl
      have h1 : (get_object (update_object_field st objId g) oid2).map ObjData.notes =
          some obj2.notes := notes_preserved_update st objId g oid2 obj2 hgn hobj
      cases h2 : get_object (update_object_field st objId g) oid2 with
      | none => rw [h2] at h1; cases h1
      | some obj2' =>
        rw [h2] at h1
        replace h1 : obj2'.notes = obj2.notes := by simpa using h1
        cases h3 : get_object (update_object_field st objId g) objId with
        | none =>
          simp [h2, h1]
        | some objm =>
          dsimp only
          by_cases hc1 : objm.status = "pending" ∧ 3 ≤ objm.views
          · rw [if_pos hc1]
            have := notes_preserved_update (update_object_field st objId g) objId
              (fun o => { o with status := "observing" }) oid2 obj2' (fun o => rfl) h2
            simpa [push_to_triage, get_object, h1] using this
          · rw [if_neg hc1]
            by_cases hc2 : objm.status = "observing"
            · rw [if_pos hc2]
              by_cases hc3 : cfg.observationMinViews ≤ objm.views ∨
                  cfg.observationWindowSec ≤ ts - objm.lastSeenTs
              · rw [if_pos hc3]
                have hpt : get_object
                    (push_to_triage (update_object_field st objId g) objId) oid2 =
                    some obj2' := h2
                rw [hpt]
                simpa using h1
              · rw [if_neg hc3]
                simp [h2, h1]
            · rw [if_neg hc2]
              simp [h2, h1]

/-- Witness for Claim C4 (amended): `force_quarantine` on a concrete fresh
object appends exactly the expected audit entry. -/
theorem transition_audit_amended_witness :
    (get_object (force_quarantine "2026-01-01T00:00:00" exQSt "o1" "manual").1 "o1").map
        ObjData.notes =
      some [{ fromStatus := "pending", toStatus := "quarantine", reason := "manual",
              timestamp := "2026-01-01T00:00:00" }] :=
  transition_audit_amended.2.2.1 "2026-01-01T00:00:00" exQSt "o1" "manual" {}
    (by decide) (by decide)

/-- Claim C5 counterexample — with the empty reason string (a valid `str`
argument), `force_quarantine` twice appends no audit entry at all (the
`if reason:` truthiness guard skips the append), so the second call does
not produce "exactly one additional audit entry beyond the first call's
effect": both calls leave the audit log empty even though the status does
reach `quarantine`. -/
theorem force_quarantine_empty_reason_counterexample :
    (get_object (force_quarantine "t1" exQSt "o1" "").1 "o1").map ObjData.status =
      some "quarantine" ∧
    (get_object (force_quarantine "t1" exQSt "o1" "").1 "o1").map ObjData.notes =
      some [] ∧
    (get_object (force_quarantine "t2" (force_quarantine "t1" exQSt "o1" "").1
        "o1" "").1 "o1").map ObjData.notes = some [] := by
  decide

/-- Claim C5 (amended) — for every existing object and every NON-EMPTY
reason, calling `force_quarantine` twice with the same reason is idempotent
on status (`quarantine` after each call) and the second call appends
exactly one additional audit entry beyond the first call's effect — a
`quarantine → quarantine` entry, not a duplicate of the first call's
entry.  (With an empty reason the audit append is skipped entirely, see the
counterexample.) -/
theorem force_quarantine_idempotent_amended :
    ∀ st objId r t1 t2 obj, get_object st objId = some obj → r ≠ "" →
    (force_quarantine t1 st objId r).2 = true ∧
    (force_quarantine t2 (force_quarantine t1 st objId r).1 objId r).2 = true ∧
    (get_object (force_quarantine t1 st objId r).1 objId).map ObjData.status =
      some "quarantine" ∧
    (get_object (force_quarantine t2 (force_quarantine t1 st objId r).1 objId r).1
        objId).map ObjData.status = some "quarantine" ∧
    (get_object (force_quarantine t1 st objId r).1 objId).map ObjData.notes =
      some (obj.notes ++
        [{ fromStatus := obj.status, toStatus := "quarantine", reason := r,
           timestamp := t1 }]) ∧
    (get_object (force_quarantine t2 (force_quarantine t1 st objId r).1 objId r).1
        objId).map ObjData.notes =
      some (obj.notes ++
        [{ fromStatus := obj.status, toStatus := "quarantine", reason := r,
           timestamp := t1 },
         { fromStatus := "quarantine", toStatus := "quarantine", reason := r,
           timestamp := t2 }]) := by
  intro st objId r t1 t2 obj hobj hr
  have hv : "quarantine" ∈ validStatuses := by decide
  have h1 := transition_status_apply t1 st objId "quarantine" r obj hv hobj hr
  have h2 := transition_status_apply t2 (transition_status t1 st objId "quarantine"
    (some r)).1 objId "quarantine" r _ hv h1.2 hr
  unfold force_quarantine
  refine ⟨h1.1, h2.1, ?_, ?_, ?_, ?_⟩
  · rw [h1.2]; rfl
  · rw [h2.2]; rfl
  · rw [h1.2]; rfl
  · rw [h2.2]
    simp

/-- Witness for Claim C5 (amended): the two calls evaluated on a concrete
fresh object. -/
theorem force_quarantine_idempotent_amended_witness :
    (get_object (force_quarantine "t2" (force_quarantine "t1" exQSt "o1" "bad").1
        "o1" "bad").1 "o1").map ObjData.notes =
      some [{ fromStatus := "pending", toStatus := "quarantine", reason := "bad",
              timestamp := "t1" },
            { fromStatus := "quarantine", toStatus := "quarantine", reason := "bad",
              timestamp := "t2" }] :=
  (force_quarantine_idempotent_amended exQSt "o1" "bad" "t1" "t2" {} (by decide)
    (by decide)).2.2.2.2.2

/-- One buffered `sync_object` step on an object present in the ephemeral
store: append the record, flush exactly when the buffer reaches
`buffer_size`. -/
theorem sync_object_false_eq (dbOk : Bool) (redis : RedisState) (s : PersistState)
    (objId : String) (obj : ObjData) (h : get_object redis objId = some obj) :
    sync_object dbOk redis s objId false =
      some (if bufferSize ≤ s.objectBuffer.length + 1 then
              flush_objects dbOk
                { s with objectBuffer := s.objectBuffer ++
                    [{ id := objId, className := obj.className, status := obj.status,
                       finalAssetPath := none, notes := obj.notes }] }
            else
              { s with objectBuffer := s.objectBuffer ++
                  [{ id := objId, className := obj.className, status := obj.status,
                     finalAssetPath := none, notes := obj.notes }] }) := by
  unfold sync_object
  rw [h]
  simp

/-- Invariant of a run of buffered `sync_object` calls that never overfills
the buffer: below `buffer_size` nothing flushes and the records pile up;
exactly at `buffer_size` one flush fires and empties the buffer. -/
theorem sync_run_spec : ∀ (ids : List String) (redis : RedisState) (s : PersistState),
    (∀ id ∈ ids, (get_object redis id).isSome) →
    s.objectBuffer.length + ids.length ≤ bufferSize →
    (s.objectBuffer.length + ids.length < bufferSize →
       (sync_run true redis ids s).objectBuffer.length =
         s.objectBuffer.length + ids.length ∧
       (sync_run true redis ids s).flushCount = s.flushCount ∧
       (sync_run true redis ids s).objectsDb = s.objectsDb) ∧
    (s.objectBuffer.length + ids.length = bufferSize → ids ≠ [] →
       (sync_run true redis ids s).objectBuffer = [] ∧
       (sync_run true redis ids s).flushCount = s.flushCount + 1) := by
  intro ids
  induction ids with
  | nil =>
    intro redis s _ _
    exact ⟨fun _ => ⟨by simp [sync_run], rfl, rfl⟩, fun _ hne => absurd rfl hne⟩
  | cons id rest ih =>
    intro redis s hall hle
    have hid : (get_object redis id).isSome := hall id (List.mem_cons_self id rest)
    obtain ⟨obj, hobj⟩ := Option.isSome_iff_exists.mp hid
    have hrest : ∀ i ∈ rest, (get_object redis i).isSome :=
      fun i hi => hall i (List.mem_cons_of_mem id hi)
    have hstep : sync_run true redis (id :: rest) s =
        sync_run true redis rest
          ((sync_object true redis s id false).getD s) := by
      simp [sync_run]
    rw [sync_object_false_eq true redis s id obj hobj] at hstep
    simp only [Option.getD_some] at hstep
    simp only [List.length_cons] at hle
    by_cases hfull : bufferSize ≤ s.objectBuffer.length + 1
    · -- the appended record fills the buffer: this must be the last call
      have hlen : s.objectBuffer.length + 1 = bufferSize := by omega
      have hrest0 : rest.length = 0 := by omega
      have hrestnil : rest = [] := List.length_eq_zero.mp hrest0
      subst hrestnil
      rw [if_pos hfull] at hstep
      have hne : (s.objectBuffer ++
          [{ id := id, className := obj.className, status := obj.status,
             finalAssetPath := none, notes := obj.notes }] : List ObjRecord) ≠ [] := by
        simp
      constructor
      · intro hlt
        simp at hlt
        omega
      · intro _ _
        rw [hstep]
        unfold sync_run flush_objects
        rw [if_neg hne, if_pos rfl]
        simp
    · rw [if_neg hfull] at hstep
      set s1 : PersistState :=
        { s with objectBuffer := s.objectBuffer ++
            [{ id := id, className := obj.className, status := obj.status,
               finalAssetPath := none, notes := obj.notes }] } with hs1
      have hs1len : s1.objectBuffer.length = s.objectBuffer.length + 1 := by
        simp [hs1]
      have hih := ih redis s1 hrest (by rw [hs1len]; omega)
      simp only [List.length_cons]
      constructor
      · intro hlt
        have h1 := hih.1 (by rw [hs1len]; omega)
        rw [hstep]
        refine ⟨?_, ?_, ?_⟩
        · rw [h1.1, hs1len]; omega
        · exact h1.2.1
        · exact h1.2.2
      · intro htot _
        have hrne : rest ≠ [] := by
          intro hnil
          subst hnil
          simp at htot
          omega
        have h2 := hih.2 (by rw [hs1len]; omega) hrne
        rw [hstep]
        exact ⟨h2.1, h2.2⟩

/-- Claim C7 — after `buffer_size` (100) buffered `sync_object` calls on
stored objects, starting from an empty buffer, the buffer auto-flushes
exactly once (the flush counter increases by exactly one, and only at the
100th call), leaving the buffer empty; and a failed flush rolls the
transaction back and retains every buffered record: `flush_objects` with a
failing database changes nothing at all. -/
theorem buffered_flush_correct :
    (∀ redis ids s, (∀ id ∈ ids, (get_object redis id).isSome) →
       s.objectBuffer = [] → ids.length = bufferSize →
       (sync_run true redis ids s).objectBuffer = [] ∧
       (sync_run true redis ids s).flushCount = s.flushCount + 1) ∧
    (∀ redis ids s, (∀ id ∈ ids, (get_object redis id).isSome) →
       s.objectBuffer = [] → ids.length < bufferSize →
       (sync_run true redis ids s).flushCount = s.flushCount ∧
       (sync_run true redis ids s).objectBuffer.length = ids.length) ∧
    (∀ s, flush_objects false s = s) := by
  refine ⟨?_, ?_, ?_⟩
  · intro redis ids s hall hbuf hlen
    have hspec := sync_run_spec ids redis s hall
      (by rw [hbuf, hlen]; simp)
    have := hspec.2
    rw [hbuf] at this
    have hne : ids ≠ [] := by
      intro hnil
      rw [hnil] at hlen
      simp [bufferSize] at hlen
    exact this (by simpa using hlen) hne
  · intro redis ids s hall hbuf hlen
    have hspec := sync_run_spec ids redis s hall
      (by rw [hbuf]; simp; omega)
    have h1 := hspec.1 (by rw [hbuf]; simpa using hlen)
    rw [hbuf] at h1
    exact ⟨h1.2.1, by simpa using h1.1⟩
  · intro s
    unfold flush_objects
    by_cases hb : s.objectBuffer = []
    · rw [if_pos hb]
    · rw [if_neg hb]
      simp

/-- Witness for Claim C7: 100 buffered syncs of a stored object from an
empty buffer end with an empty buffer and exactly one committed flush. -/
theorem buffered_flush_correct_witness :
    (sync_run true exQSt (List.replicate bufferSize "o1") {}).objectBuffer = [] ∧
    (sync_run true exQSt (List.replicate bufferSize "o1") {}).flushCount =
      ({} : PersistState).flushCount + 1 :=
  buffered_flush_correct.1 exQSt (List.replicate bufferSize "o1") {}
    (by decide) rfl (by decide)

/-- `alookup` succeeds exactly on the stored keys. -/
theorem alookup_isSome_iff (k : String) (l : List (String × β)) :
    (alookup k l).isSome = true ↔ k ∈ l.map Prod.fst := by
  induction l with
  | nil => simp [alookup]
  | cons p rest ih =>
    obtain ⟨k0, v⟩ := p
    by_cases h0 : k0 = k
    · subst h0; simp [alookup]
    · have h0' : ¬ (k = k0) := fun hh => h0 hh.symm
      simp [alookup, h0, h0', ih]

/-- Looking up the overwritten member of a `ZADD`-style score update. -/
theorem alookup_zmap (z : List (String × ℚ)) (f : String) (ts : ℚ) :
    alookup f (z.map (fun p => if p.1 = f then (f, ts) else p)) =
      (alookup f z).map (fun _ => ts) := by
  induction z with
  | nil => simp [alookup]
  | cons p rest ih =>
    obtain ⟨k0, v⟩ := p
    rw [List.map_cons]
    by_cases h0 : k0 = f
    · subst h0
      rw [if_pos (show (k0, v).1 = k0 from rfl)]
      simp [alookup]
    · rw [if_neg (show ¬ ((k0, v).1 = f) from h0)]
      simp [alookup, h0, ih]

/-- A `ZADD` on an existing member keeps the member set unchanged; on a new
member it appends exactly that member. -/
theorem zadd_view_keys (z : List (String × ℚ)) (f : String) (ts : ℚ) :
    (zadd_view z f ts).map Prod.fst =
      if (alookup f z).isSome then z.map Prod.fst else z.map Prod.fst ++ [f] := by
  unfold zadd_view
  by_cases h : (alookup f z).isSome
  · rw [if_pos h, if_pos h, List.map_map]
    refine List.map_congr_left ?_
    intro p _
    by_cases hp : p.1 = f
    · simp [hp]
    · simp [hp]
  · rw [if_neg h, if_neg h]
    simp

/-- Member sets and distinctness across a run of `add_view` calls, at the
level of a single ZSET. -/
theorem zadd_view_run_keys (calls : List (String × ℚ)) :
    ∀ z : List (String × ℚ), (z.map Prod.fst).Nodup →
      (((calls.foldl (fun zz c => zadd_view zz c.1 c.2) z).map Prod.fst).Nodup ∧
       ((calls.foldl (fun zz c => zadd_view zz c.1 c.2) z).map Prod.fst).toFinset =
         (z.map Prod.fst).toFinset ∪ ((calls.map Prod.fst).toFinset)) := by
  induction calls with
  | nil => intro z hz; simpa using hz
  | cons c rest ih =>
    intro z hz
    simp only [List.foldl_cons, List.map_cons, List.toFinset_cons]
    by_cases h : (alookup c.1 z).isSome
    · have hkeys : (zadd_view z c.1 c.2).map Prod.fst = z.map Prod.fst := by
        rw [zadd_view_keys, if_pos h]
      have hmem : c.1 ∈ (z.map Prod.fst).toFinset :=
        List.mem_toFinset.mpr ((alookup_isSome_iff c.1 z).mp h)
      have hres := ih (zadd_view z c.1 c.2) (by rw [hkeys]; exact hz)
      refine ⟨hres.1, ?_⟩
      rw [hres.2, hkeys, Finset.union_insert, Finset.insert_eq_self.mpr
        (Finset.mem_union_left _ hmem)]
    · have hkeys : (zadd_view z c.1 c.2).map Prod.fst = z.map Prod.fst ++ [c.1] := by
        rw [zadd_view_keys, if_neg h]
      have hnotmem : c.1 ∉ z.map Prod.fst := by
        intro hm
        exact h ((alookup_isSome_iff c.1 z).mpr hm)
      have hnd : ((zadd_view z c.1 c.2).map Prod.fst).Nodup := by
        rw [hkeys]
        simp [List.nodup_append, hz, hnotmem]
      have hres := ih (zadd_view z c.1 c.2) hnd
      refine ⟨hres.1, ?_⟩
      rw [hres.2, hkeys]
      simp only [List.toFinset_append, List.toFinset_cons, List.toFinset_nil]
      rw [Finset.union_insert]
      simp [Finset.union_comm, Finset.union_assoc]

/-- The per-object ZSET after a run of `add_view` calls for that object. -/
theorem add_view_run_zset (objId : String) (calls : List (String × ℚ)) :
    ∀ st : RedisState,
      (alookup objId (add_view_run objId calls st).viewsZ).getD [] =
        calls.foldl (fun zz c => zadd_view zz c.1 c.2)
          ((alookup objId st.viewsZ).getD []) := by
  induction calls with
  | nil => intro st; simp [add_view_run]
  | cons c rest ih =>
    intro st
    have hstep : add_view_run objId (c :: rest) st =
        add_view_run objId rest (add_view st objId c.1 c.2) := by
      simp [add_view_run]
    rw [hstep, ih]
    have : (alookup objId (add_view st objId c.1 c.2).viewsZ).getD [] =
        zadd_view ((alookup objId st.viewsZ).getD []) c.1 c.2 := by
      unfold add_view
      rw [alookup_aupdate_self]
      rfl
    rw [this]
    rfl

/-- Claim C10 — the ephemeral view history deduplicates by frame id:
`add_view` on an already-present frame id replaces that entry's timestamp
without adding a member (the view count is unchanged), and after any
sequence of `add_view` calls starting from an absent/empty ZSET the view
count equals the number of distinct frame ids ever added, not the number of
calls. -/
theorem add_view_dedup :
    (∀ st objId frameId ts,
       (alookup frameId ((alookup objId st.viewsZ).getD [])).isSome →
       get_view_count (add_view st objId frameId ts) objId = get_view_count st objId ∧
       alookup frameId ((alookup objId (add_view st objId frameId ts).viewsZ).getD []) =
         some ts) ∧
    (∀ objId calls st, alookup objId st.viewsZ = none →
       get_view_count (add_view_run objId calls st) objId =
         ((calls.map Prod.fst).toFinset).card) := by
  constructor
  · intro st objId frameId ts h
    have hz : (alookup objId (add_view st objId frameId ts).viewsZ).getD [] =
        zadd_view ((alookup objId st.viewsZ).getD []) frameId ts := by
      unfold add_view
      rw [alookup_aupdate_self]
      rfl
    constructor
    · unfold get_view_count
      rw [hz]
      unfold zadd_view
      rw [if_pos h]
      simp
    · rw [hz]
      unfold zadd_view
      rw [if_pos h, alookup_zmap]
      obtain ⟨v, hv⟩ := Option.isSome_iff_exists.mp h
      rw [hv]
      rfl
  · intro objId calls st h
    unfold get_view_count
    rw [add_view_run_zset, h]
    have hrun := zadd_view_run_keys calls [] (by simp)
    simp only [Option.getD_none] at *
    have hlen : ((calls.foldl (fun zz c => zadd_view zz c.1 c.2) []).map
        Prod.fst).length =
        (calls.foldl (fun zz c => zadd_view zz c.1 c.2) []).length :=
      List.length_map _ _
    rw [← hlen, ← List.toFinset_card_of_nodup hrun.1, hrun.2]
    simp

/-- Witness for Claim C10: a repeated frame id leaves the count at 2 and
updates the timestamp; three calls with two distinct frame ids count 2. -/
theorem add_view_dedup_witness :
    get_view_count (add_view { viewsZ := [("o1", [("f1", 1), ("f2", 2)])] }
        "o1" "f1" 7) "o1" =
      get_view_count ({ viewsZ := [("o1", [("f1", 1), ("f2", 2)])] } : RedisState)
        "o1" ∧
    alookup "f1" ((alookup "o1" (add_view
        { viewsZ := [("o1", [("f1", 1), ("f2", 2)])] } "o1" "f1" 7).viewsZ).getD []) =
      some 7 ∧
    get_view_count (add_view_run "o2" [("f1", 1), ("f2", 2), ("f1", 3)] {}) "o2" =
      (((([("f1", (1 : ℚ)), ("f2", 2), ("f1", 3)]).map Prod.fst).toFinset).card) :=
  ⟨(add_view_dedup.1 { viewsZ := [("o1", [("f1", 1), ("f2", 2)])] } "o1" "f1" 7
      (by decide)).1,
   (add_view_dedup.1 { viewsZ := [("o1", [("f1", 1), ("f2", 2)])] } "o1" "f1" 7
      (by decide)).2,
   add_view_dedup.2 "o2" [("f1", 1), ("f2", 2), ("f1", 3)] {} rfl⟩

/-- Python's `x % 360` lands in `[0, 360)`. -/
theorem fmod_360_bounds (a : ℚ) : 0 ≤ fmod a 360 ∧ fmod a 360 < 360 := by
  have hf : fmod a 360 = 360 * Int.fract (a / 360) := by
    unfold fmod
    rw [Int.fract]
    ring
  constructor
  · rw [hf]
    have := Int.fract_nonneg (a / 360)
    positivity
  · rw [hf]
    have h1 := Int.fract_lt_one (a / 360)
    nlinarith [h1]

/-- The running maximum never drops below its seed. -/
theorem le_foldl_max (l : List ℚ) : ∀ acc : ℚ, acc ≤ l.foldl max acc := by
  induction l with
  | nil => intro acc; simp
  | cons x rest ih =>
    intro acc
    calc acc ≤ max acc x := le_max_left acc x
    _ ≤ rest.foldl max (max acc x) := ih (max acc x)

/-- The running maximum of values below a bound stays below the bound. -/
theorem foldl_max_lt (c : ℚ) (l : List ℚ) :
    ∀ acc : ℚ, acc < c → (∀ x ∈ l, x < c) → l.foldl max acc < c := by
  induction l with
  | nil => intro acc hacc _; simpa using hacc
  | cons x rest ih =>
    intro acc hacc hall
    simp only [List.foldl_cons]
    exact ih (max acc x) (max_lt hacc (hall x (List.mem_cons_self x rest)))
      (fun y hy => hall y (List.mem_cons_of_mem x hy))

/-- The tracker's `max_gap` over any angle list lies in `[0, 360)`. -/
theorem max_gap_bounds (as : List ℚ) : 0 ≤ max_gap as ∧ max_gap as < 360 := by
  unfold max_gap
  constructor
  · exact le_foldl_max _ 0
  · refine foldl_max_lt 360 _ 0 (by norm_num) ?_
    intro x hx
    unfold wrapGaps at hx
    obtain ⟨p, _, hp⟩ := List.mem_map.mp hx
    rw [← hp]
    exact (fmod_360_bounds _).2

/-- `calculate_orbit` always lands in `[0, 360]`, for any angle primitive
and any observation list. -/
theorem calculate_orbit_bounds (f : ℚ → ℚ → ℚ) (frames : List FrameObs) :
    0 ≤ calculate_orbit f frames ∧ calculate_orbit f frames ≤ 360 := by
  unfold calculate_orbit
  by_cases h1 : frames.length < 2
  · rw [if_pos h1]; norm_num
  rw [if_neg h1]
  by_cases h2 : (orbitCenters frames).length < 2
  · rw [if_pos h2]; norm_num
  rw [if_neg h2]
  by_cases h3 : orbitAngles f (orbitCenters frames) = []
  · rw [if_pos h3]; norm_num
  rw [if_neg h3]
  have hg := max_gap_bounds (List.insertionSort (· ≤ ·)
    (orbitAngles f (orbitCenters frames)))
  constructor
  · refine le_min ?_ (by norm_num)
    linarith [hg.2]
  · exact min_le_right _ _

/-- `_update_best_frames` only touches `best_frames`. -/
theorem update_best_frames_orbitDeg (sc : ℚ → ℚ → ℚ) (t : ObjectTrack)
    (fid : String) (d : Detection) :
    (update_best_frames sc t fid d).orbitDeg = t.orbitDeg := by
  unfold update_best_frames
  cases t.bestFrames
  · rfl
  · dsimp only
    split <;> rfl

/-- Membership in an updated association list: either an untouched entry or
the updated value at the key. -/
theorem mem_aupdate (dflt : β) (k : String) (g : β → β) :
    ∀ (l : List (String × β)) (q : String × β),
      q ∈ aupdate dflt k g l → q ∈ l ∨ ∃ b, q = (k, g b) := by
  intro l
  induction l with
  | nil =>
    intro q hq
    simp only [aupdate, List.mem_singleton] at hq
    exact Or.inr ⟨dflt, hq⟩
  | cons p rest ih =>
    intro q hq
    obtain ⟨k0, v⟩ := p
    by_cases h0 : k0 = k
    · subst h0
      unfold aupdate at hq
      rw [if_pos rfl] at hq
      rcases List.mem_cons.mp hq with hq | hq
      · exact Or.inr ⟨v, hq⟩
      · exact Or.inl (List.mem_cons_of_mem _ hq)
    · simp only [aupdate, if_neg h0, List.mem_cons] at hq
      rcases hq with hq | hq
      · exact Or.inl (by simp [hq])
      · rcases ih q hq with h | h
        · exact Or.inl (List.mem_cons_of_mem _ h)
        · exact Or.inr h

/-- `_update_track` preserves the orbit-range invariant: the rewritten
track's orbit is a fresh `_calculate_orbit` value, every other track is
untouched. -/
theorem update_track_orbit (cfg : TrackerCfg) (st : TrackerState)
    (objId frameId : String) (d : Detection) (ts : ℚ)
    (hst : ∀ p ∈ st.tracks, 0 ≤ p.2.orbitDeg ∧ p.2.orbitDeg ≤ 360) :
    ∀ p ∈ (update_track cfg st objId frameId d ts).tracks,
      0 ≤ p.2.orbitDeg ∧ p.2.orbitDeg ≤ 360 := by
  intro p hp
  unfold update_track at hp
  dsimp only at hp
  rcases mem_aupdate _ _ _ _ _ hp with hmem | ⟨b, hb⟩
  · by_cases hin : (alookup objId st.tracks).isSome
    · rw [if_pos hin] at hmem
      exact hst p hmem
    · rw [if_neg hin] at hmem
      rcases List.mem_append.mp hmem with h | h
      · exact hst p h
      · have : p = (objId, emptyTrack objId d.className ts) := by simpa using h
        rw [this]
        unfold emptyTrack
        norm_num
  · rw [hb]
    dsimp only
    rw [update_best_frames_orbitDeg]
    exact calculate_orbit_bounds cfg.atan2deg _

/-- The new-track creation loop of `ObjectTracker.update` preserves the
orbit-range invariant: new tracks start at orbit 0. -/
theorem orbit_inv_create_foldl (frameId : String) (ts : ℚ) (freshIds : Nat → String) :
    ∀ (np : List (Nat × (Nat × Detection))) (s : TrackerState),
      (∀ p ∈ s.tracks, 0 ≤ p.2.orbitDeg ∧ p.2.orbitDeg ≤ 360) →
      ∀ p ∈ (np.foldl (fun s q =>
          create_new_track s (freshIds q.1) frameId q.2.2 ts) s).tracks,
        0 ≤ p.2.orbitDeg ∧ p.2.orbitDeg ≤ 360 := by
  intro np
  induction np with
  | nil => intro s hs; simpa using hs
  | cons q rest ih =>
    intro s hs
    simp only [List.foldl_cons]
    refine ih _ ?_
    intro p hp
    unfold create_new_track at hp
    dsimp only at hp
    rcases List.mem_append.mp hp with h | h
    · exact hs p h
    · have : p.2.orbitDeg = 0 := by
        have := List.mem_singleton.mp h
        rw [this]
      rw [this]
      norm_num

/-- Claim C8 — `orbit_deg` is always in `[0, 360]`: the value computed by
`_calculate_orbit` is bounded for every angle primitive and every
observation list; and every value the tracker actually stores in a track's
`orbit_deg` lies in `[0, 360]` — whenever `ObjectTracker.update` returns
(it raises `AttributeError` as soon as any detection matches, storing
nothing), every stored track's `orbit_deg` stays inside `[0, 360]`
(new tracks are created with orbit 0). -/
theorem orbit_deg_in_range :
    (∀ f frames, 0 ≤ calculate_orbit f frames ∧ calculate_orbit f frames ≤ 360) ∧
    (∀ cfg freshIds st frameId dets ts st2 ids,
       (∀ p ∈ st.tracks, 0 ≤ p.2.orbitDeg ∧ p.2.orbitDeg ≤ 360) →
       tracker_update cfg freshIds st frameId dets ts = some (st2, ids) →
       ∀ p ∈ st2.tracks, 0 ≤ p.2.orbitDeg ∧ p.2.orbitDeg ≤ 360) := by
  refine ⟨calculate_orbit_bounds, ?_⟩
  intro cfg freshIds st frameId dets ts st2 ids hst h
  unfold tracker_update at h
  dsimp only at h
  by_cases hm : match_detections cfg.iouThreshold st.tracks dets = []
  · rw [if_pos hm] at h
    simp only [Option.some.injEq, Prod.mk.injEq] at h
    obtain ⟨h1, _⟩ := h
    rw [← h1]
    intro p hp
    unfold remove_stale_tracks at hp
    dsimp only at hp
    have hp2 := List.mem_filter.mp hp
    exact orbit_inv_create_foldl frameId ts freshIds _ _ hst p hp2.1
  · rw [if_neg hm] at h
    cases h

/-- Witness for Claim C8: a concrete tracker update that returns keeps the
stored orbits in range. -/
theorem orbit_deg_in_range_witness :
    tracker_update exCfg (fun _ => "n") ⟨[], {}⟩ "f2" [] 1 =
      some (⟨[], {}⟩, []) ∧
    ∀ p ∈ (⟨[], {}⟩ : TrackerState).tracks,
      0 ≤ p.2.orbitDeg ∧ p.2.orbitDeg ≤ 360 :=
  ⟨rfl, orbit_deg_in_range.2 exCfg (fun _ => "n") ⟨[], {}⟩ "f2" [] 1
    ⟨[], {}⟩ [] (by simp) rfl⟩

/-- The computable axis-value angle function satisfies the `atan2`
axis specification. -/
theorem atan2degAxes_spec : IsAtan2Deg atan2degAxes := by
  refine ⟨?_, ?_, ?_, ?_⟩ <;> intro x hx <;>
    simp [atan2degAxes, hx, hx.not_lt, hx.ne, hx.ne']

/-- Claim C3 — orbit coverage: a single observation yields `orbit_deg = 0`;
whenever at least two bbox centers exist, the computed coverage equals
exactly `360 − max_gap(sorted atan2 angles around the centroid)` (the final
`min(·, 360)` clamp never fires because `max_gap ≥ 0`); and four
observations whose centers sit at 0°, 90°, 180°, 270° around their centroid
yield a coverage of 270. -/
theorem orbit_coverage_gap_formula :
    ∀ f : ℚ → ℚ → ℚ, IsAtan2Deg f →
      (∀ obs : FrameObs, calculate_orbit f [obs] = 0) ∧
      (∀ frames, 2 ≤ (orbitCenters frames).length →
        calculate_orbit f frames =
          360 - max_gap (List.insertionSort (· ≤ ·)
            (orbitAngles f (orbitCenters frames)))) ∧
      calculate_orbit f exFourFrames = 270 := by
  intro f hf
  obtain ⟨h01, h90, h180, hm90⟩ := hf
  have hgen : ∀ frames, 2 ≤ (orbitCenters frames).length →
      calculate_orbit f frames =
        360 - max_gap (List.insertionSort (· ≤ ·)
          (orbitAngles f (orbitCenters frames))) := by
    intro frames hc
    have hfl : ¬ (frames.length < 2) := by
      have hle := List.length_filterMap_le (fun fr => bboxCenter fr.bbox) frames
      unfold orbitCenters at hc
      omega
    have hangles : ¬ (orbitAngles f (orbitCenters frames) = []) := by
      have hlen : (orbitAngles f (orbitCenters frames)).length =
          (orbitCenters frames).length := by
        simp [orbitAngles]
      intro h
      rw [h] at hlen
      simp at hlen
      omega
    unfold calculate_orbit
    rw [if_neg hfl, if_neg (by omega), if_neg hangles]
    have hmg := (max_gap_bounds (List.insertionSort (· ≤ ·)
      (orbitAngles f (orbitCenters frames)))).1
    exact min_eq_left (by linarith)
  have hcenters : orbitCenters exFourFrames = [(1, 0), (0, 1), (-1, 0), (0, -1)] := by
    norm_num [orbitCenters, exFourFrames, bboxCenter, List.filterMap_cons,
      List.filterMap_nil]
  have hang : orbitAngles f (orbitCenters exFourFrames) = [0, 90, 180, -90] := by
    rw [hcenters]
    unfold orbitAngles
    norm_num [listMean]
    rw [h01 1 one_pos, h90 1 one_pos, h180 (-1) (by norm_num), hm90 (-1) (by norm_num)]
    norm_num
  refine ⟨?_, hgen, ?_⟩
  · intro obs
    simp [calculate_orbit]
  · rw [hgen exFourFrames (by rw [hcenters]; norm_num), hang]
    have hsort : List.insertionSort (· ≤ ·) [(0:ℚ), 90, 180, -90] =
        [-90, 0, 90, 180] := by
      norm_num [List.insertionSort, List.orderedInsert]
    rw [hsort]
    have hmg : max_gap [(-90:ℚ), 0, 90, 180] = 90 := by
      unfold max_gap wrapGaps
      norm_num [List.rotate, fmod, max_def]
    rw [hmg]
    norm_num

/-- Witness for Claim C3: the axis-valued angle function realises the
specification, and the two boundary cases evaluate as claimed. -/
theorem orbit_coverage_gap_formula_witness :
    IsAtan2Deg atan2degAxes ∧
    calculate_orbit atan2degAxes [exOneFrame] = 0 ∧
    calculate_orbit atan2degAxes exFourFrames =
      360 - max_gap (List.insertionSort (· ≤ ·)
        (orbitAngles atan2degAxes (orbitCenters exFourFrames))) ∧
    calculate_orbit atan2degAxes exFourFrames = 270 :=
  ⟨atan2degAxes_spec,
   (orbit_coverage_gap_formula atan2degAxes atan2degAxes_spec).1 exOneFrame,
   (orbit_coverage_gap_formula atan2degAxes atan2degAxes_spec).2.1 exFourFrames
     (by decide),
   (orbit_coverage_gap_formula atan2degAxes atan2degAxes_spec).2.2⟩

/-- Invariant proof of the detection-selection loop: if a best detection is
returned, it is an unused in-range detection whose IoU meets the threshold
and is maximal among all unused detections.  `processed ++ l` is the full
indexed detection list, `bestIou`/`best` the loop accumulator. -/
theorem best_match_aux_spec (τ : ℚ) (lb : List ℚ) (used : List Nat)
    (full : List (Nat × Detection)) :
    ∀ (l processed : List (Nat × Detection)) (bestIou : ℚ) (best : Option Nat),
      full = processed ++ l →
      0 ≤ bestIou →
      (∀ m, best = some m → m ∉ used ∧ τ ≤ bestIou ∧
        ∃ d, (m, d) ∈ full ∧ calculate_iou lb d.bbox = bestIou) →
      (∀ q ∈ processed, q.1 ∉ used →
        calculate_iou lb q.2.bbox ≤ bestIou ∨ calculate_iou lb q.2.bbox < τ) →
      ∀ i, best_match_aux τ lb used l bestIou best = some i →
        ∃ d, (i, d) ∈ full ∧ i ∉ used ∧ τ ≤ calculate_iou lb d.bbox ∧
          ∀ q ∈ full, q.1 ∉ used →
            calculate_iou lb q.2.bbox ≤ calculate_iou lb d.bbox := by
  intro l
  induction l with
  | nil =>
    intro processed bestIou best hfull h0 hbest hmax i hres
    simp only [best_match_aux] at hres
    obtain ⟨hm, hτ, d, hd, hiou⟩ := hbest i hres
    refine ⟨d, hd, hm, by rw [hiou]; exact hτ, ?_⟩
    intro q hq hqu
    rw [hiou]
    rcases hmax q (by rw [hfull] at hq; simpa using hq) hqu with h | h
    · exact h
    · linarith
  | cons p rest ih =>
    intro processed bestIou best hfull h0 hbest hmax i hres
    obtain ⟨j, d'⟩ := p
    by_cases hju : j ∈ used
    · rw [show best_match_aux τ lb used ((j, d') :: rest) bestIou best =
          best_match_aux τ lb used rest bestIou best from by
        simp [best_match_aux, hju]] at hres
      refine ih (processed ++ [(j, d')]) bestIou best (by rw [hfull]; simp) h0 hbest
        ?_ i hres
      intro q hq hqu
      rcases List.mem_append.mp hq with h | h
      · exact hmax q h hqu
      · have hqe : q = (j, d') := by simpa using h
        rw [hqe] at hqu
        exact absurd hju hqu
    · by_cases hcond : bestIou < calculate_iou lb d'.bbox ∧
          τ ≤ calculate_iou lb d'.bbox
      · rw [show best_match_aux τ lb used ((j, d') :: rest) bestIou best =
            best_match_aux τ lb used rest (calculate_iou lb d'.bbox) (some j) from by
          simp only [best_match_aux, if_neg hju]
          rw [if_pos hcond]] at hres
        refine ih (processed ++ [(j, d')]) (calculate_iou lb d'.bbox) (some j)
          (by rw [hfull]; simp) (le_of_lt (lt_of_le_of_lt h0 hcond.1)) ?_ ?_ i hres
        · intro m hm
          rw [Option.some_inj] at hm
          subst hm
          exact ⟨hju, hcond.2, d', by rw [hfull]; simp, rfl⟩
        · intro q hq hqu
          rcases List.mem_append.mp hq with h | h
          · rcases hmax q h hqu with h2 | h2
            · exact Or.inl (le_of_lt (lt_of_le_of_lt h2 hcond.1))
            · exact Or.inr h2
          · have hqe : q = (j, d') := by simpa using h
            rw [hqe]
            exact Or.inl le_rfl
      · rw [show best_match_aux τ lb used ((j, d') :: rest) bestIou best =
            best_match_aux τ lb used rest bestIou best from by
          simp only [best_match_aux, if_neg hju]
          rw [if_neg hcond]] at hres
        refine ih (processed ++ [(j, d')]) bestIou best (by rw [hfull]; simp) h0 hbest
          ?_ i hres
        intro q hq hqu
        rcases List.mem_append.mp hq with h | h
        · exact hmax q h hqu
        · have hqe : q = (j, d') := by simpa using h
          rw [hqe]
          rcases not_and_or.mp hcond with h2 | h2
          · exact Or.inl (le_of_not_lt h2)
          · exact Or.inr (lt_of_not_le h2)

/-- Soundness and maximality of `best_match`: a returned index is an
unused detection whose IoU meets the threshold and is the best available
one. -/
theorem best_match_spec (τ : ℚ) (lb : List ℚ) (dets : List Detection)
    (used : List Nat) (i : Nat) (h : best_match τ lb dets used = some i) :
    ∃ d, dets[i]? = some d ∧ i ∉ used ∧ τ ≤ calculate_iou lb d.bbox ∧
      ∀ j d', dets[j]? = some d' → j ∉ used →
        calculate_iou lb d'.bbox ≤ calculate_iou lb d.bbox := by
  have hs := best_match_aux_spec τ lb used dets.enum dets.enum [] 0 none rfl le_rfl
    (by intro m hm; cases hm) (by intro q hq; cases hq) i h
  obtain ⟨d, hd, hm, hτ, hmax⟩ := hs
  refine ⟨d, List.mk_mem_enum_iff_getElem?.mp hd, hm, hτ, ?_⟩
  intro j d' hj hju
  exact hmax (j, d') (List.mk_mem_enum_iff_getElem?.mpr hj) hju

/-- Invariant of the greedy track-matching fold: the used set mirrors the
matched detection indices, both the matched detection indices and the
matched track keys stay distinct, indices stay in range, and every matched
key originates from the accumulator or the track list. -/
theorem match_fold_spec (τ : ℚ) (dets : List Detection) :
    ∀ (tracks : List (String × ObjectTrack)) (acc : List (String × Nat) × List Nat),
      acc.2 = acc.1.map Prod.snd →
      acc.2.Nodup →
      (acc.1.map Prod.fst).Nodup →
      (∀ p ∈ acc.1, p.2 < dets.length) →
      (tracks.map Prod.fst).Nodup →
      (∀ k ∈ acc.1.map Prod.fst, k ∉ tracks.map Prod.fst) →
      ((tracks.foldl (matchStep τ dets) acc).2 =
         (tracks.foldl (matchStep τ dets) acc).1.map Prod.snd ∧
       (tracks.foldl (matchStep τ dets) acc).2.Nodup ∧
       ((tracks.foldl (matchStep τ dets) acc).1.map Prod.fst).Nodup ∧
       (∀ p ∈ (tracks.foldl (matchStep τ dets) acc).1, p.2 < dets.length) ∧
       (∀ k ∈ (tracks.foldl (matchStep τ dets) acc).1.map Prod.fst,
          k ∈ acc.1.map Prod.fst ∨ k ∈ tracks.map Prod.fst)) := by
  intro tracks
  induction tracks with
  | nil =>
    intro acc h1 h2 h3 h4 _ _
    exact ⟨h1, h2, h3, h4, fun k hk => Or.inl hk⟩
  | cons p rest ih =>
    intro acc h1 h2 h3 h4 h5 h6
    obtain ⟨k0, tr⟩ := p
    simp only [List.map_cons, List.nodup_cons] at h5
    have h6' : ∀ k ∈ acc.1.map Prod.fst, k ∉ rest.map Prod.fst := by
      intro k hk hkr
      exact h6 k hk (by simp [hkr])
    have hk0acc : k0 ∉ acc.1.map Prod.fst := by
      intro hk
      exact h6 k0 hk (by simp)
    simp only [List.foldl_cons]
    cases hlast : (k0, tr).2.frames.getLast? with
    | none =>
      have hres := ih acc h1 h2 h3 h4 h5.2 h6'
      rw [show matchStep τ dets acc (k0, tr) = acc from by
        simp only [matchStep, hlast]]
      refine ⟨hres.1, hres.2.1, hres.2.2.1, hres.2.2.2.1, ?_⟩
      intro k hk
      rcases hres.2.2.2.2 k hk with h | h
      · exact Or.inl h
      · exact Or.inr (by simp [h])
    | some lastFrame =>
      cases hbm : best_match τ lastFrame.bbox dets acc.2 with
      | none =>
        have hres := ih acc h1 h2 h3 h4 h5.2 h6'
        rw [show matchStep τ dets acc (k0, tr) = acc from by
          simp only [matchStep, hlast, hbm]]
        refine ⟨hres.1, hres.2.1, hres.2.2.1, hres.2.2.2.1, ?_⟩
        intro k hk
        rcases hres.2.2.2.2 k hk with h | h
        · exact Or.inl h
        · exact Or.inr (by simp [h])
      | some i =>
        obtain ⟨d, hd, hiu, _, _⟩ := best_match_spec τ lastFrame.bbox dets acc.2 i hbm
        have hilt : i < dets.length := by
          obtain ⟨hlt, _⟩ := List.getElem?_eq_some_iff.mp hd
          exact hlt
        rw [show matchStep τ dets acc (k0, tr) = (acc.1 ++ [(k0, i)], acc.2 ++ [i])
            from by
          simp only [matchStep, hlast, hbm]]
        have h1' : (acc.1 ++ [(k0, i)], acc.2 ++ [i]).2 =
            (acc.1 ++ [(k0, i)], acc.2 ++ [i]).1.map Prod.snd := by
          simp [h1]
        have h2' : (acc.2 ++ [i]).Nodup := by
          rw [List.nodup_append]
          refine ⟨h2, List.nodup_singleton _, ?_⟩
          intro x hx hx2
          have hxe : x = i := by simpa using hx2
          rw [hxe] at hx
          exact hiu hx
        have h3' : ((acc.1 ++ [(k0, i)]).map Prod.fst).Nodup := by
          rw [List.map_append, List.nodup_append]
          refine ⟨h3, by simp, ?_⟩
          intro k hk hk2
          have hke : k = k0 := by simpa using hk2
          rw [hke] at hk
          exact hk0acc hk
        have h4' : ∀ p ∈ acc.1 ++ [(k0, i)], p.2 < dets.length := by
          intro p hp
          rcases List.mem_append.mp hp with h | h
          · exact h4 p h
          · have : p = (k0, i) := by simpa using h
            rw [this]
            exact hilt
        have h6'' : ∀ k ∈ (acc.1 ++ [(k0, i)]).map Prod.fst,
            k ∉ rest.map Prod.fst := by
          intro k hk
          simp only [List.map_append, List.mem_append] at hk
          rcases hk with h | h
          · exact h6' k h
          · have : k = k0 := by simpa using h
            rw [this]
            exact h5.1
        have hres := ih (acc.1 ++ [(k0, i)], acc.2 ++ [i]) h1' h2' h3' h4' h5.2 h6''
        refine ⟨hres.1, hres.2.1, hres.2.2.1, hres.2.2.2.1, ?_⟩
        intro k hk
        rcases hres.2.2.2.2 k hk with h | h
        · simp only [List.map_append, List.mem_append] at h
          rcases h with h | h
          · exact Or.inl h
          · have : k = k0 := by simpa using h
            exact Or.inr (by simp [this])
        · exact Or.inr (by simp [h])

/-- Splitting a filter by a predicate and its negation. -/
theorem length_filter_add_length_filter_neg (p : α → Bool) :
    ∀ l : List α, (l.filter p).length + (l.filter (fun a => !(p a))).length = l.length := by
  intro l
  induction l with
  | nil => simp
  | cons x rest ih =>
    cases hx : p x <;> simp [List.filter_cons, hx] <;> omega

/-- Filtering `range n` by membership in a duplicate-free sublist of
`range n` counts exactly that list's length. -/
theorem length_filter_mem_range (n : Nat) (S : List Nat) (hS : S.Nodup)
    (hlt : ∀ x ∈ S, x < n) :
    ((List.range n).filter (fun x => decide (x ∈ S))).length = S.length := by
  have hperm : List.Perm ((List.range n).filter (fun x => decide (x ∈ S))) S := by
    refine (List.perm_ext_iff_of_nodup ((List.nodup_range n).filter _) hS).mpr ?_
    intro a
    simp only [List.mem_filter, List.mem_range, decide_eq_true_eq]
    exact ⟨fun h => h.2, fun h => ⟨hlt a h, h⟩⟩
  exact hperm.length_eq

/-- The unmatched detections of `ObjectTracker.update` number exactly
`|detections| − |matched|`. -/
theorem length_enum_filter_not_mem (dets : List Detection) (S : List Nat)
    (hS : S.Nodup) (hlt : ∀ x ∈ S, x < dets.length) :
    (dets.enum.filter (fun p => !(decide (p.1 ∈ S)))).length =
      dets.length - S.length := by
  have hcomp : (fun p : Nat × Detection => !(decide (p.1 ∈ S))) =
      ((fun x => !(decide (x ∈ S))) ∘ Prod.fst) := rfl
  have h1 : ((List.range dets.length).filter (fun x => !(decide (x ∈ S)))).length =
      (dets.enum.filter (fun p => !(decide (p.1 ∈ S)))).length := by
    rw [← List.enum_map_fst dets, List.filter_map, List.length_map, hcomp]
  rw [← h1]
  have h2 := length_filter_add_length_filter_neg (fun x => decide (x ∈ S))
    (List.range dets.length)
  rw [length_filter_mem_range dets.length S hS hlt] at h2
  simp only [List.length_range] at h2
  omega

/-- Claim C9 — the detection-to-track assignment built by
`_match_detections` is a one-to-one partial map: no detection index is
claimed by two tracks, no track claims two detections (each track key
appears at most once), every claimed index is in range and every claiming
key is a real track.  The claimed consequence — that the update creates one
new track per unclaimed detection — is the code's evident intent but does
not hold: whenever the assignment is non-empty, `update` passes the raw
detection index into `_update_track` and raises `AttributeError`, creating
no new track at all; only when the assignment is empty does the update
return, and then it yields exactly one fresh id per (unclaimed)
detection. -/
theorem matching_injective :
    (∀ τ tracks dets, (tracks.map Prod.fst).Nodup →
      ((match_detections τ tracks dets).map Prod.snd).Nodup ∧
      ((match_detections τ tracks dets).map Prod.fst).Nodup ∧
      (∀ p ∈ match_detections τ tracks dets,
        p.2 < dets.length ∧ p.1 ∈ tracks.map Prod.fst)) ∧
    (∀ cfg freshIds st frameId dets ts,
      match_detections cfg.iouThreshold st.tracks dets ≠ [] →
      tracker_update cfg freshIds st frameId dets ts = none) ∧
    (∀ cfg freshIds st frameId dets ts,
      match_detections cfg.iouThreshold st.tracks dets = [] →
      (tracker_update cfg freshIds st frameId dets ts).map
        (fun r => r.2.length) = some dets.length) := by
  have hmain : ∀ τ (tracks : List (String × ObjectTrack)) dets,
      (tracks.map Prod.fst).Nodup →
      ((match_detections τ tracks dets).map Prod.snd).Nodup ∧
      ((match_detections τ tracks dets).map Prod.fst).Nodup ∧
      (∀ p ∈ match_detections τ tracks dets,
        p.2 < dets.length ∧ p.1 ∈ tracks.map Prod.fst) := by
    intro τ tracks dets hnd
    have hspec := match_fold_spec τ dets tracks ([], []) rfl List.nodup_nil
      (by simp) (by intro p hp; cases hp) hnd (by intro k hk; cases hk)
    obtain ⟨hmirror, hsndnd, hfstnd, hbound, horigin⟩ := hspec
    refine ⟨?_, hfstnd, ?_⟩
    · unfold match_detections
      rw [← hmirror]
      exact hsndnd
    · intro p hp
      refine ⟨hbound p hp, ?_⟩
      rcases horigin p.1 (List.mem_map_of_mem Prod.fst hp) with h | h
      · cases h
      · exact h
  refine ⟨hmain, ?_, ?_⟩
  · intro cfg freshIds st frameId dets ts hm
    unfold tracker_update
    dsimp only
    rw [if_neg hm]
  · intro cfg freshIds st frameId dets ts hm
    unfold tracker_update
    dsimp only
    rw [hm, if_pos rfl]
    simp [List.enum_length]

/-- Witness for Claim C9: the one-track/two-detection matching is injective;
the matched detection makes the whole update raise (`none`); with no tracks
the update returns one fresh id per detection. -/
theorem matching_injective_witness :
    (((match_detections (mkRat 1 2)
        [("a", { objId := "a", className := "box",
                 frames := [{ frameId := "f1", bbox := [0, 0, 10, 10],
                              confidence := 1, timestamp := 1 }],
                 orbitDeg := 0, bestFrames := none, lastSeenTs := 1 })]
        [{ bbox := [0, 0, 10, 10], confidence := 1, className := "box" },
         { bbox := [50, 50, 60, 60], confidence := 1, className := "cup" }]).map
        Prod.snd).Nodup ∧
     ((match_detections (mkRat 1 2)
        [("a", { objId := "a", className := "box",
                 frames := [{ frameId := "f1", bbox := [0, 0, 10, 10],
                              confidence := 1, timestamp := 1 }],
                 orbitDeg := 0, bestFrames := none, lastSeenTs := 1 })]
        [{ bbox := [0, 0, 10, 10], confidence := 1, className := "box" },
         { bbox := [50, 50, 60, 60], confidence := 1, className := "cup" }]).map
        Prod.fst).Nodup ∧
     (∀ p ∈ match_detections (mkRat 1 2)
        [("a", { objId := "a", className := "box",
                 frames := [{ frameId := "f1", bbox := [0, 0, 10, 10],
                              confidence := 1, timestamp := 1 }],
                 orbitDeg := 0, bestFrames := none, lastSeenTs := 1 })]
        [{ bbox := [0, 0, 10, 10], confidence := 1, className := "box" },
         { bbox := [50, 50, 60, 60], confidence := 1, className := "cup" }],
        p.2 < 2 ∧ p.1 ∈ ["a"])) ∧
    tracker_update exCfg (fun _ => "n")
      ⟨[("a", { objId := "a", className := "box",
                frames := [{ frameId := "f1", bbox := [0, 0, 10, 10],
                             confidence := 1, timestamp := 1 }],
                orbitDeg := 0, bestFrames := none, lastSeenTs := 1 })], {}⟩
      "f2" [{ bbox := [0, 0, 10, 10], confidence := 1, className := "box" },
            { bbox := [50, 50, 60, 60], confidence := 1, className := "cup" }]
      1 = none ∧
    (tracker_update exCfg (fun n => if n = 0 then "n0" else "n1") ⟨[], {}⟩
      "f2" [{ bbox := [0, 0, 10, 10], confidence := 1, className := "box" },
            { bbox := [50, 50, 60, 60], confidence := 1, className := "cup" }]
      1).map (fun r => r.2.length) = some 2 :=
  ⟨matching_injective.1 (mkRat 1 2)
    [("a", { objId := "a", className := "box",
             frames := [{ frameId := "f1", bbox := [0, 0, 10, 10],
                          confidence := 1, timestamp := 1 }],
             orbitDeg := 0, bestFrames := none, lastSeenTs := 1 })]
    [{ bbox := [0, 0, 10, 10], confidence := 1, className := "box" },
     { bbox := [50, 50, 60, 60], confidence := 1, className := "cup" }]
    (by decide),
   matching_injective.2.1 exCfg (fun _ => "n")
    ⟨[("a", { objId := "a", className := "box",
              frames := [{ frameId := "f1", bbox := [0, 0, 10, 10],
                           confidence := 1, timestamp := 1 }],
              orbitDeg := 0, bestFrames := none, lastSeenTs := 1 })], {}⟩
    "f2" [{ bbox := [0, 0, 10, 10], confidence := 1, className := "box" },
          { bbox := [50, 50, 60, 60], confidence := 1, className := "cup" }]
    1
    (by norm_num [match_detections, matchStep, best_match, best_match_aux,
      List.getLast?, List.enum, List.enumFrom, calculate_iou, max_def, min_def,
      exCfg, Rat.mkRat_eq_div]),
   matching_injective.2.2 exCfg (fun n => if n = 0 then "n0" else "n1") ⟨[], {}⟩
    "f2" [{ bbox := [0, 0, 10, 10], confidence := 1, className := "box" },
          { bbox := [50, 50, 60, 60], confidence := 1, className := "cup" }]
    1 rfl⟩

/-- Claim C2 — IoU matching: a track/detection pair is matched only when its
IoU meets the threshold (default 0.5) and the detection is the best
available one for that track (earlier tracks, in insertion order, choose
first — captured by the greedy used-set); and in the two-track scenario
`_match_detections` does assign the overlapping detection's index to the
right track — but the claimed continuation, `update` assigning the
detection to that track and returning its id without creating a new one,
never executes: `update` passes the raw detection index into
`_update_track`, which raises `AttributeError` at `detection.bbox`, so the
whole call fails (`none`) instead of updating the matched track. -/
theorem tracker_iou_matching_bug :
    (∀ τ lb dets used i, best_match τ lb dets used = some i →
      ∃ d, dets[i]? = some d ∧ i ∉ used ∧ τ ≤ calculate_iou lb d.bbox ∧
        ∀ j d', dets[j]? = some d' → j ∉ used →
          calculate_iou lb d'.bbox ≤ calculate_iou lb d.bbox) ∧
    (∀ cfg (a b : String) (t1 t2 : ObjectTrack) (d : Detection) (l1 l2 : FrameObs)
        (redis : RedisState) (frameId : String) (ts : ℚ) (freshIds : Nat → String),
      cfg.iouThreshold = 1/2 →
      t1.frames.getLast? = some l1 → t2.frames.getLast? = some l2 →
      calculate_iou l1.bbox l2.bbox = 0 →
      ((1/2 < calculate_iou l1.bbox d.bbox → calculate_iou l2.bbox d.bbox < 1/2 →
        match_detections cfg.iouThreshold [(a, t1), (b, t2)] [d] = [(a, 0)] ∧
        tracker_update cfg freshIds ⟨[(a, t1), (b, t2)], redis⟩
          frameId [d] ts = none) ∧
       (1/2 < calculate_iou l2.bbox d.bbox → calculate_iou l1.bbox d.bbox < 1/2 →
        match_detections cfg.iouThreshold [(a, t1), (b, t2)] [d] = [(b, 0)] ∧
        tracker_update cfg freshIds ⟨[(a, t1), (b, t2)], redis⟩
          frameId [d] ts = none))) := by
  refine ⟨best_match_spec, ?_⟩
  intro cfg a b t1 t2 d l1 l2 redis frameId ts freshIds hτ hl1 hl2 hsep
  constructor
  · intro hp hq
    have h1 : (0:ℚ) < calculate_iou l1.bbox d.bbox := by linarith
    have h2 : (1:ℚ)/2 ≤ calculate_iou l1.bbox d.bbox := le_of_lt hp
    have hbm1 : best_match cfg.iouThreshold l1.bbox [d] [] = some 0 := by
      rw [hτ]
      simp [best_match, best_match_aux, List.enum, List.enumFrom, h1]; linarith
    have hbm2 : best_match cfg.iouThreshold l2.bbox [d] [0] = none := by
      simp [best_match, best_match_aux, List.enum, List.enumFrom]
    have hmd : match_detections cfg.iouThreshold [(a, t1), (b, t2)] [d] = [(a, 0)] := by
      unfold match_detections
      simp only [List.foldl_cons, List.foldl_nil]
      rw [show matchStep cfg.iouThreshold [d] ([], []) (a, t1) = ([(a, 0)], [0]) from by
        simp [matchStep, hl1, hbm1]]
      rw [show matchStep cfg.iouThreshold [d] ([(a, 0)], [0]) (b, t2) = ([(a, 0)], [0])
          from by
        simp [matchStep, hl2, hbm2]]
    exact ⟨hmd, by simp [tracker_update, hmd]⟩
  · intro hp hq
    have h1 : (0:ℚ) < calculate_iou l2.bbox d.bbox := by linarith
    have h2 : (1:ℚ)/2 ≤ calculate_iou l2.bbox d.bbox := le_of_lt hp
    have hnle : ¬ ((1:ℚ)/2 ≤ calculate_iou l1.bbox d.bbox) := not_le.mpr hq
    have hbm1 : best_match cfg.iouThreshold l1.bbox [d] [] = none := by
      rw [hτ]
      simp [best_match, best_match_aux, List.enum, List.enumFrom]
      intro h3
      linarith
    have hbm2 : best_match cfg.iouThreshold l2.bbox [d] [] = some 0 := by
      rw [hτ]
      simp [best_match, best_match_aux, List.enum, List.enumFrom, h1]; linarith
    have hmd : match_detections cfg.iouThreshold [(a, t1), (b, t2)] [d] = [(b, 0)] := by
      unfold match_detections
      simp only [List.foldl_cons, List.foldl_nil]
      rw [show matchStep cfg.iouThreshold [d] ([], []) (a, t1) = ([], []) from by
        simp [matchStep, hl1, hbm1]]
      rw [show matchStep cfg.iouThreshold [d] ([], []) (b, t2) = ([(b, 0)], [0]) from by
        simp [matchStep, hl2, hbm2]]
    exact ⟨hmd, by simp [tracker_update, hmd]⟩

/-- Witness for Claim C2: two concrete non-overlapping tracks and a
detection coinciding with the first track's box — the matching assigns the
detection's index to that track, and the update call fails (`none`) instead
of performing the assignment. -/
theorem tracker_iou_matching_bug_witness :
    match_detections exCfg.iouThreshold
      [("a", { objId := "a", className := "box",
               frames := [{ frameId := "f1", bbox := [0, 0, 10, 10],
                            confidence := 1, timestamp := 1 }],
               orbitDeg := 0, bestFrames := none, lastSeenTs := 1 }),
       ("b", { objId := "b", className := "cup",
               frames := [{ frameId := "f1", bbox := [20, 20, 30, 30],
                            confidence := 1, timestamp := 1 }],
               orbitDeg := 0, bestFrames := none, lastSeenTs := 1 })]
      [{ bbox := [0, 0, 10, 10], confidence := 1, className := "box" }] =
      [("a", 0)] ∧
    tracker_update exCfg (fun _ => "n")
      ⟨[("a", { objId := "a", className := "box",
                frames := [{ frameId := "f1", bbox := [0, 0, 10, 10],
                             confidence := 1, timestamp := 1 }],
                orbitDeg := 0, bestFrames := none, lastSeenTs := 1 }),
        ("b", { objId := "b", className := "cup",
                frames := [{ frameId := "f1", bbox := [20, 20, 30, 30],
                             confidence := 1, timestamp := 1 }],
                orbitDeg := 0, bestFrames := none, lastSeenTs := 1 })], {}⟩
      "f2" [{ bbox := [0, 0, 10, 10], confidence := 1, className := "box" }]
      1 = none :=
  (tracker_iou_matching_bug.2 exCfg "a" "b"
      { objId := "a", className := "box",
        frames := [{ frameId := "f1", bbox := [0, 0, 10, 10],
                     confidence := 1, timestamp := 1 }],
        orbitDeg := 0, bestFrames := none, lastSeenTs := 1 }
      { objId := "b", className := "cup",
        frames := [{ frameId := "f1", bbox := [20, 20, 30, 30],
                     confidence := 1, timestamp := 1 }],
        orbitDeg := 0, bestFrames := none, lastSeenTs := 1 }
      { bbox := [0, 0, 10, 10], confidence := 1, className := "box" }
      { frameId := "f1", bbox := [0, 0, 10, 10], confidence := 1, timestamp := 1 }
      { frameId := "f1", bbox := [20, 20, 30, 30], confidence := 1, timestamp := 1 }
      {} "f2" 1 (fun _ => "n")
      (by norm_num [exCfg, Rat.mkRat_eq_div])
      rfl rfl
      (by norm_num [calculate_iou, max_def, min_def])).1
    (by norm_num [calculate_iou, max_def, min_def])
    (by norm_num [calculate_iou, max_def, min_def])
